import Mathlib

/-!
LillyDAP: the public API header and the lillypass test program.

A shallow embedding of `include/lillydap/api.h` and `test/lillypass.c`.

* Pointers are addresses (`Ptr`, with `0` for `NULL`); a pointer that is only
  handed on is never dereferenced by the model.
* Functions that are declared in the header but defined elsewhere
  (`lillyput_ldapmessage`, `lillyput_operation`, `lillydap_open`, `malloc`, ...)
  are fields of an `Oracle`: arbitrary state transformers over an arbitrary
  state type `σ`.  Every call made by the embedded code is also recorded, in
  order, in the `trace` of the `World`.
* C `int` values are `Int`; the flag words are `Nat` (no shift in the header
  exceeds 25, so `unsigned long` never wraps).
-/

namespace Lillydap

/-! ## Basic types -/

/-- An address; `0` is the `NULL` pointer. -/
abbrev Ptr := Nat

/-- The type `LillyPool`, a pointer to a memory pool. -/
abbrev LillyPool := Ptr

/-- The type `LillyMsgId`. -/
abbrev LillyMsgId := Nat

/-- The Quick DER cursor `dercursor`: a pointer and a length.  The pointer is
`none` for `NULL`, and otherwise carries the bytes found from the address on. -/
structure dercursor where
  derptr : Option (List Nat)
  derlen : Nat
deriving DecidableEq, Repr

/-- The three texts that `lillypass_UnbindRequest` formats with `%s`:
"absent", "empty" and "filled?!?". -/
inductive PayloadText where
  | absent
  | empty
  | filled
deriving DecidableEq, Repr

/-- The lines that lillypass writes with `printf`, one constructor per format
string, carrying the arguments that are formatted. -/
inductive Line where
  | GotUnbindRequest
  | payloadLengthIs (s : PayloadText)
  | GotSearchRequest
  | baseObject (c : dercursor)
  | scopeAwkwardSize (derlen : Nat)
  | scopeBase
  | scopeOne
  | scopeSub
  | scopeWeird (v : Nat)
  | derefAwkwardSize (derlen : Nat)
  | neverDerefAlias
  | derefInSearching
  | derefFindingBaseObj
  | derefAlways
  | derefWeird (v : Nat)
  | attributesDerlen (derlen : Nat)
  | attributesEnterDerlen (derlen : Nat)
  | attrDerlen (derlen : Nat)
  | attributes (c : dercursor)
  | GotSearchResultEntry
  | objectName (c : dercursor)
  | partialAttributeType (c : dercursor)
  | value (c : dercursor)
deriving DecidableEq, Repr

/-- The lines that lillypass writes to `stderr`. -/
inductive ErrLine where
  | focusSearchRequest
  | invalidLevel
  | level4NotImplemented
  | usage (progname : List Char)
  | poolFailed (progname : List Char)
  | openFailed (progname derfilename : List Char)
  | getFlagsFailed (progname : List Char)
  | setNonBlockingFailed (progname : List Char)
deriving DecidableEq, Repr

/-- One observable call made by the embedded code, with its arguments. -/
inductive Event where
  | lillyget_dercursor (lil : Ptr) (qpool : LillyPool) (msg : dercursor)
  | lillyget_ldapmessage (lil : Ptr) (qpool : LillyPool) (msgid : LillyMsgId)
      (op controls : dercursor)
  | lillyget_operation (lil : Ptr) (qpool : LillyPool) (msgid : LillyMsgId)
      (opcode : Nat) (data : Ptr) (controls : dercursor)
  | lillyput_dercursor (lil : Ptr) (qpool : LillyPool) (dermsg : dercursor)
  | lillyput_ldapmessage (lil : Ptr) (qpool : LillyPool) (msgid : LillyMsgId)
      (operation controls : dercursor)
  | lillyput_operation (lil : Ptr) (qpool : LillyPool) (msgid : LillyMsgId)
      (opcode : Nat) (data : Ptr) (controls : dercursor)
  | malloc (size : Nat)
  | lillydap_open (ld : Ptr) (ld_sz : Nat) (hostname : Ptr) (portno : Int)
  | free (p : Ptr)
  | printf (l : Line)
  | fprintf_stderr (l : ErrLine)
  | lillymem_newpool
  | lillymem_alloc0 (pool : LillyPool) (size : Nat)
  | sys_open (path : List Char)
  | fcntl_getfl (fd : Int)
  | fcntl_setfl (fd : Int) (flags : Int)
  | close (fd : Int)
  | lillyget_event (lil : Ptr)
  | lillyput_event (lil : Ptr)
deriving DecidableEq, Repr

/-- The functions the header declares without defining them, and the C
library calls it makes, as state transformers over a state `σ`. -/
structure Oracle (σ : Type) where
  lillyget_dercursor : Ptr → LillyPool → dercursor → σ → Int × σ
  lillyget_ldapmessage :
    Ptr → LillyPool → LillyMsgId → dercursor → dercursor → σ → Int × σ
  lillyget_operation :
    Ptr → LillyPool → LillyMsgId → Nat → Ptr → dercursor → σ → Int × σ
  lillyput_dercursor : Ptr → LillyPool → dercursor → σ → Int × σ
  lillyput_ldapmessage :
    Ptr → LillyPool → LillyMsgId → dercursor → dercursor → σ → Int × σ
  lillyput_operation :
    Ptr → LillyPool → LillyMsgId → Nat → Ptr → dercursor → σ → Int × σ
  malloc : Nat → σ → Ptr × σ
  lillydap_open : Ptr → Nat → Ptr → Int → σ → Int × σ
  free : Ptr → σ → σ

/-- The state of the outside world together with the calls made so far. -/
structure World (σ : Type) where
  state : σ
  trace : List Event

/-- Record one event. -/
def World.emit {σ : Type} (w : World σ) (e : Event) : World σ :=
  { w with trace := w.trace ++ [e] }

/-- A call of the external `lillyput_ldapmessage`. -/
def call_lillyput_ldapmessage {σ : Type} (X : Oracle σ) (lil : Ptr)
    (qpool : LillyPool) (msgid : LillyMsgId) (operation controls : dercursor)
    (w : World σ) : Int × World σ :=
  let r := X.lillyput_ldapmessage lil qpool msgid operation controls w.state
  (r.1, { state := r.2,
          trace := w.trace ++ [Event.lillyput_ldapmessage lil qpool msgid operation controls] })

/-- A call of the external `lillyput_operation`. -/
def call_lillyput_operation {σ : Type} (X : Oracle σ) (lil : Ptr)
    (qpool : LillyPool) (msgid : LillyMsgId) (opcode : Nat) (data : Ptr)
    (controls : dercursor) (w : World σ) : Int × World σ :=
  let r := X.lillyput_operation lil qpool msgid opcode data controls w.state
  (r.1, { state := r.2,
          trace := w.trace ++ [Event.lillyput_operation lil qpool msgid opcode data controls] })

/-- A call of the external `lillyput_dercursor`. -/
def call_lillyput_dercursor {σ : Type} (X : Oracle σ) (lil : Ptr)
    (qpool : LillyPool) (dermsg : dercursor) (w : World σ) : Int × World σ :=
  let r := X.lillyput_dercursor lil qpool dermsg w.state
  (r.1, { state := r.2, trace := w.trace ++ [Event.lillyput_dercursor lil qpool dermsg] })

/-- A call of the external `lillyget_dercursor`. -/
def call_lillyget_dercursor {σ : Type} (X : Oracle σ) (lil : Ptr)
    (qpool : LillyPool) (msg : dercursor) (w : World σ) : Int × World σ :=
  let r := X.lillyget_dercursor lil qpool msg w.state
  (r.1, { state := r.2, trace := w.trace ++ [Event.lillyget_dercursor lil qpool msg] })

/-- A call of the external `lillyget_ldapmessage`. -/
def call_lillyget_ldapmessage {σ : Type} (X : Oracle σ) (lil : Ptr)
    (qpool : LillyPool) (msgid : LillyMsgId) (op controls : dercursor)
    (w : World σ) : Int × World σ :=
  let r := X.lillyget_ldapmessage lil qpool msgid op controls w.state
  (r.1, { state := r.2,
          trace := w.trace ++ [Event.lillyget_ldapmessage lil qpool msgid op controls] })

/-- A call of the external `lillyget_operation`. -/
def call_lillyget_operation {σ : Type} (X : Oracle σ) (lil : Ptr)
    (qpool : LillyPool) (msgid : LillyMsgId) (opcode : Nat) (data : Ptr)
    (controls : dercursor) (w : World σ) : Int × World σ :=
  let r := X.lillyget_operation lil qpool msgid opcode data controls w.state
  (r.1, { state := r.2,
          trace := w.trace ++ [Event.lillyget_operation lil qpool msgid opcode data controls] })

/-- A call of `malloc`. -/
def call_malloc {σ : Type} (X : Oracle σ) (size : Nat) (w : World σ) : Ptr × World σ :=
  let r := X.malloc size w.state
  (r.1, { state := r.2, trace := w.trace ++ [Event.malloc size] })

/-- A call of the external `lillydap_open`. -/
def call_lillydap_open {σ : Type} (X : Oracle σ) (ld : Ptr) (ld_sz : Nat)
    (hostname : Ptr) (portno : Int) (w : World σ) : Int × World σ :=
  let r := X.lillydap_open ld ld_sz hostname portno w.state
  (r.1, { state := r.2, trace := w.trace ++ [Event.lillydap_open ld ld_sz hostname portno] })

/-- A call of `free`. -/
def call_free {σ : Type} (X : Oracle σ) (p : Ptr) (w : World σ) : World σ :=
  { state := X.free p w.state, trace := w.trace ++ [Event.free p] }

/-! ## api.h: `lillyput_opcode` and `ldap_open` -/

/-- The inline function `lillyput_opcode` of api.h (the assertion is compiled
out by `#if 0`). -/
def lillyput_opcode {σ : Type} (X : Oracle σ) (lil : Ptr) (qpool : LillyPool)
    (msgid : LillyMsgId) (opcode_ignored : Nat) (operation controls : dercursor)
    (w : World σ) : Int × World σ :=
  let _ := opcode_ignored
  call_lillyput_ldapmessage X lil qpool msgid operation controls w

/-- The inline function `ldap_open` of api.h; `sizeof_LDAP` is
`sizeof (LDAP)`. -/
def ldap_open {σ : Type} (X : Oracle σ) (sizeof_LDAP : Nat) (h : Ptr) (p : Int)
    (w : World σ) : Ptr × World σ :=
  let (rv, w1) := call_malloc X sizeof_LDAP w
  if rv ≠ 0 then
    let (ok, w2) := call_lillydap_open X rv sizeof_LDAP h p w1
    if ok = 0 then
      let w3 := call_free X rv w2
      (0, w3)
    else
      (rv, w2)
  else
    (rv, w1)

/-! ## api.h: the typed `lillyput_<Op>` helpers -/

/-- The macro `putop (opcd, opnm)`: the body shared by all typed helpers.  The
cast `(const dercursor *) arg` keeps the address. -/
def putop {σ : Type} (opcd : Nat) (X : Oracle σ) (lil : Ptr) (qpool : LillyPool)
    (mid : LillyMsgId) (arg : Ptr) (ctl : dercursor) (w : World σ) : Int × World σ :=
  call_lillyput_operation X lil qpool mid opcd arg ctl w

/-- The type of a typed put helper. -/
abbrev PutHelper (σ : Type) :=
  Oracle σ → Ptr → LillyPool → LillyMsgId → Ptr → dercursor → World σ → Int × World σ

def lillyput_BindRequest {σ : Type} : PutHelper σ := putop 0
def lillyput_BindResponse {σ : Type} : PutHelper σ := putop 1
def lillyput_UnbindRequest {σ : Type} : PutHelper σ := putop 2
def lillyput_SearchRequest {σ : Type} : PutHelper σ := putop 3
def lillyput_SearchResultEntry {σ : Type} : PutHelper σ := putop 4
def lillyput_SearchResultDone {σ : Type} : PutHelper σ := putop 5
def lillyput_ModifyRequest {σ : Type} : PutHelper σ := putop 6
def lillyput_ModifyResponse {σ : Type} : PutHelper σ := putop 7
def lillyput_AddRequest {σ : Type} : PutHelper σ := putop 8
def lillyput_AddResponse {σ : Type} : PutHelper σ := putop 9
def lillyput_DelRequest {σ : Type} : PutHelper σ := putop 10
def lillyput_DelResponse {σ : Type} : PutHelper σ := putop 11
def lillyput_ModifyDNRequest {σ : Type} : PutHelper σ := putop 12
def lillyput_ModifyDNResponse {σ : Type} : PutHelper σ := putop 13
def lillyput_CompareRequest {σ : Type} : PutHelper σ := putop 14
def lillyput_CompareResponse {σ : Type} : PutHelper σ := putop 15
def lillyput_AbandonRequest {σ : Type} : PutHelper σ := putop 16
def lillyput_SearchResultReference {σ : Type} : PutHelper σ := putop 19
def lillyput_ExtendedRequest {σ : Type} : PutHelper σ := putop 23
def lillyput_ExtendedResponse {σ : Type} : PutHelper σ := putop 24
def lillyput_IntermediateResponse {σ : Type} : PutHelper σ := putop 25

/-- The operation names used by api.h, as they appear in `putop (..)` and in
`struct LillyCallbacks`. -/
inductive OpName where
  | BindRequest | BindResponse | UnbindRequest | SearchRequest
  | SearchResultEntry | SearchResultDone | ModifyRequest | ModifyResponse
  | AddRequest | AddResponse | DelRequest | DelResponse
  | ModifyDNRequest | ModifyDNResponse | CompareRequest | CompareResponse
  | AbandonRequest | SearchResultReference
  | ExtendedRequest | ExtendedResponse | IntermediateResponse
  | StartTLSRequest | StartTLSResponse
  | PasswdModifyRequest | PasswdModifyResponse
  | WhoamiRequest | WhoamiResponse
  | CancelRequest | CancelResponse
  | StartLBURPRequest | StartLBURPResponse
  | EndLBURPRequest | EndLBURPResponse
  | LBURPUpdateRequest | LBURPUpdateResponse
  | TurnRequest | TurnResponse
  | TxnStartRequest | TxnStartResponse
  | TxnEndRequest | TxnEndResponse
  | TxnAbortedNotice
deriving DecidableEq, Repr

/-- The typed helper `lillyput_<Op>` that api.h defines for an operation name,
if it defines one. -/
def lillyput_ {σ : Type} : OpName → Option (PutHelper σ)
  | .BindRequest => some lillyput_BindRequest
  | .BindResponse => some lillyput_BindResponse
  | .UnbindRequest => some lillyput_UnbindRequest
  | .SearchRequest => some lillyput_SearchRequest
  | .SearchResultEntry => some lillyput_SearchResultEntry
  | .SearchResultDone => some lillyput_SearchResultDone
  | .ModifyRequest => some lillyput_ModifyRequest
  | .ModifyResponse => some lillyput_ModifyResponse
  | .AddRequest => some lillyput_AddRequest
  | .AddResponse => some lillyput_AddResponse
  | .DelRequest => some lillyput_DelRequest
  | .DelResponse => some lillyput_DelResponse
  | .ModifyDNRequest => some lillyput_ModifyDNRequest
  | .ModifyDNResponse => some lillyput_ModifyDNResponse
  | .CompareRequest => some lillyput_CompareRequest
  | .CompareResponse => some lillyput_CompareResponse
  | .AbandonRequest => some lillyput_AbandonRequest
  | .SearchResultReference => some lillyput_SearchResultReference
  | .ExtendedRequest => some lillyput_ExtendedRequest
  | .ExtendedResponse => some lillyput_ExtendedResponse
  | .IntermediateResponse => some lillyput_IntermediateResponse
  | _ => none

/-- An oracle over the trivial state whose functions all return `0`; used to
observe which calls a helper makes. -/
def probe : Oracle Unit where
  lillyget_dercursor := fun _ _ _ s => (0, s)
  lillyget_ldapmessage := fun _ _ _ _ _ s => (0, s)
  lillyget_operation := fun _ _ _ _ _ _ s => (0, s)
  lillyput_dercursor := fun _ _ _ s => (0, s)
  lillyput_ldapmessage := fun _ _ _ _ _ s => (0, s)
  lillyput_operation := fun _ _ _ _ _ _ s => (0, s)
  malloc := fun _ s => (0, s)
  lillydap_open := fun _ _ _ _ s => (0, s)
  free := fun _ s => s

/-- The opcode found in the single `lillyput_operation` call that a helper
makes when it is run. -/
def passed_opcode (h : PutHelper Unit) : Option Nat :=
  match (h probe 0 0 0 0 ⟨none, 0⟩ ⟨(), []⟩).2.trace with
  | [Event.lillyput_operation _ _ _ opcode _ _] => some opcode
  | _ => none

/-- The opcode that the helper `lillyput_<Op>` of an operation name passes to
`lillyput_operation`, if the helper exists. -/
def putop_opcode (nm : OpName) : Option Nat :=
  (lillyput_ nm).bind passed_opcode

/-! ## api.h: `union LillyOpRegistry` -/

/-- One member of `struct LillyCallbacks`: the macros `nmdop (nm)` and
`nmdov (nm)` declare a function pointer called `nm`, and `nonop (nr)` declares
the pointer `nullop_<nr>`.  Every member is one pointer, one callback slot. -/
inductive Member where
  | nmdop (nm : OpName)
  | nmdov (nm : OpName)
  | nonop (nr : Nat)
deriving DecidableEq, Repr

/-- The members of `struct LillyCallbacks` (the `by_name` view), in the order
of their declaration. -/
def LillyCallbacks : List Member :=
  [ .nmdop .BindRequest, .nmdop .BindResponse, .nmdop .UnbindRequest,
    .nmdop .SearchRequest, .nmdop .SearchResultEntry, .nmdop .SearchResultDone,
    .nmdop .ModifyRequest, .nmdop .ModifyResponse, .nmdop .AddRequest,
    .nmdop .AddResponse, .nmdop .DelRequest, .nmdop .DelResponse,
    .nmdop .ModifyDNRequest, .nmdop .ModifyDNResponse, .nmdop .CompareRequest,
    .nmdop .CompareResponse, .nmdop .AbandonRequest,
    .nonop 17, .nonop 18,
    .nmdop .SearchResultReference,
    .nonop 20, .nonop 21, .nonop 22, .nonop 23, .nonop 24,
    .nmdop .IntermediateResponse,
    .nonop 26, .nonop 27, .nonop 28, .nonop 29, .nonop 30, .nonop 31,
    .nmdop .StartTLSRequest, .nmdop .StartTLSResponse,
    .nmdop .PasswdModifyRequest, .nmdop .PasswdModifyResponse,
    .nmdov .WhoamiRequest, .nmdov .WhoamiResponse,
    .nmdop .CancelRequest, .nmdov .CancelResponse,
    .nmdop .StartLBURPRequest, .nmdop .StartLBURPResponse,
    .nmdop .EndLBURPRequest, .nmdov .EndLBURPResponse,
    .nmdop .LBURPUpdateRequest, .nmdov .LBURPUpdateResponse,
    .nmdop .TurnRequest, .nmdov .TurnResponse,
    .nmdov .TxnStartRequest, .nmdov .TxnStartResponse,
    .nmdop .TxnEndRequest, .nmdop .TxnEndResponse,
    .nmdov .TxnAbortedNotice ]

/-- The operation name a member is called after, if it is a named slot. -/
def Member.opname : Member → Option OpName
  | .nmdop nm => some nm
  | .nmdov nm => some nm
  | .nonop _ => none

/-- The position of the first member called `nm` in a member list, counted in
slots from `start`. -/
def slot_from (nm : OpName) : Nat → List Member → Option Nat
  | _, [] => none
  | start, m :: ms => if m.opname = some nm then some start else slot_from nm (start + 1) ms

/-- The index, in callback slots from 0, of `by_name.<nm>`: the index `i` for
which `by_opcode [i]` is the same storage. -/
def by_name_index (nm : OpName) : Option Nat :=
  slot_from nm 0 LillyCallbacks

/-- The parsed extended operations: the names of `struct LillyCallbacks` from
`StartTLSRequest` to `TxnAbortedNotice`. -/
def parsedExtendedOps : List OpName :=
  [ .StartTLSRequest, .StartTLSResponse, .PasswdModifyRequest, .PasswdModifyResponse,
    .WhoamiRequest, .WhoamiResponse, .CancelRequest, .CancelResponse,
    .StartLBURPRequest, .StartLBURPResponse, .EndLBURPRequest, .EndLBURPResponse,
    .LBURPUpdateRequest, .LBURPUpdateResponse, .TurnRequest, .TurnResponse,
    .TxnStartRequest, .TxnStartResponse, .TxnEndRequest, .TxnEndResponse,
    .TxnAbortedNotice ]

/-- All operation names. -/
def allOpNames : List OpName :=
  [ .BindRequest, .BindResponse, .UnbindRequest, .SearchRequest,
    .SearchResultEntry, .SearchResultDone, .ModifyRequest, .ModifyResponse,
    .AddRequest, .AddResponse, .DelRequest, .DelResponse,
    .ModifyDNRequest, .ModifyDNResponse, .CompareRequest, .CompareResponse,
    .AbandonRequest, .SearchResultReference,
    .ExtendedRequest, .ExtendedResponse, .IntermediateResponse ] ++ parsedExtendedOps

/-! ## api.h: the reject flags -/

def LILLYGETR_BIND_REQ : Nat := 1 <<< 0
def LILLYGETR_BIND_RESP : Nat := 1 <<< 1
def LILLYGETR_UNBIND_REQ : Nat := 1 <<< 2
def LILLYGETR_SEARCH_REQ : Nat := 1 <<< 3
def LILLYGETR_SEARCHRESULT_ENTRY : Nat := 1 <<< 4
def LILLYGETR_SEARCHRESULT_DONE : Nat := 1 <<< 5
def LILLYGETR_MODIFY_REQ : Nat := 1 <<< 6
def LILLYGETR_MODIFY_RESP : Nat := 1 <<< 7
def LILLYGETR_ADD_REQ : Nat := 1 <<< 8
def LILLYGETR_ADD_RESP : Nat := 1 <<< 9
def LILLYGETR_DEL_REQ : Nat := 1 <<< 10
def LILLYGETR_DEL_RESP : Nat := 1 <<< 11
def LILLYGETR_MODIFYDN_REQ : Nat := 1 <<< 12
def LILLYGETR_MODIFYDN_RESP : Nat := 1 <<< 13
def LILLYGETR_COMPARE_REQ : Nat := 1 <<< 14
def LILLYGETR_COMPARE_RESP : Nat := 1 <<< 15
def LILLYGETR_ABANDON_REQ : Nat := 1 <<< 16
def LILLYGETR_SEARCHRESULT_REFERENCE : Nat := 1 <<< 19
def LILLYGETR_EXTENDED_REQ : Nat := 1 <<< 23
def LILLYGETR_EXTENDED_RESP : Nat := 1 <<< 24
def LILLYGETR_INTERMEDIATE_RESP : Nat := 1 <<< 25

def LILLYGETR0_STARTTLS_REQ : Nat := 1 <<< 0
def LILLYGETR0_STARTTLS_RESP : Nat := 1 <<< 1
def LILLYGETR0_PASSWDMODIFY_REQ : Nat := 1 <<< 2
def LILLYGETR0_PASSWDMODIFY_RESP : Nat := 1 <<< 3
def LILLYGETR0_WHOAMI_REQ : Nat := 1 <<< 4
def LILLYGETR0_WHOAMI_RESP : Nat := 1 <<< 5
def LILLYGETR0_CANCEL_REQ : Nat := 1 <<< 6
def LILLYGETR0_CANCEL_RESP : Nat := 1 <<< 7
def LILLYGETR0_STARTLBURP_REQ : Nat := 1 <<< 8
def LILLYGETR0_STARTLBURP_RESP : Nat := 1 <<< 9
def LILLYGETR0_ENDLBURP_REQ : Nat := 1 <<< 10
def LILLYGETR0_ENDLBURP_RESP : Nat := 1 <<< 11
def LILLYGETR0_LBURPUPDATE_REQ : Nat := 1 <<< 12
def LILLYGETR0_LBURPUPDATE_RESP : Nat := 1 <<< 13
def LILLYGETR0_TURN_REQ : Nat := 1 <<< 14
def LILLYGETR0_TURN_RESP : Nat := 1 <<< 15
def LILLYGETR0_STARTTXN_REQ : Nat := 1 <<< 16
def LILLYGETR0_STARTTXN_RESP : Nat := 1 <<< 17
def LILLYGETR0_ENDTXN_REQ : Nat := 1 <<< 18
def LILLYGETR0_ENDTXN_RESP : Nat := 1 <<< 19
def LILLYGETR0_ABORTEDTXN_RESP : Nat := 1 <<< 20

def LILLYGETR_READER_RESP : Nat :=
  LILLYGETR_BIND_RESP ||| LILLYGETR_SEARCHRESULT_ENTRY ||| LILLYGETR_SEARCHRESULT_DONE |||
  LILLYGETR_SEARCHRESULT_REFERENCE ||| LILLYGETR_COMPARE_RESP |||
  LILLYGETR_INTERMEDIATE_RESP ||| LILLYGETR_EXTENDED_RESP

def LILLYGETR0_READER_RESP : Nat :=
  LILLYGETR0_STARTTLS_RESP ||| LILLYGETR0_CANCEL_RESP

def LILLYGETR_WRITER_RESP : Nat :=
  LILLYGETR_BIND_RESP ||| LILLYGETR_MODIFY_RESP ||| LILLYGETR_ADD_RESP |||
  LILLYGETR_DEL_RESP ||| LILLYGETR_MODIFYDN_RESP ||| LILLYGETR_INTERMEDIATE_RESP |||
  LILLYGETR_EXTENDED_RESP

def LILLYGETR0_WRITER_RESP : Nat :=
  LILLYGETR0_STARTTLS_RESP ||| LILLYGETR0_CANCEL_RESP

def LILLYGETR_ALL_RESP : Nat :=
  LILLYGETR_READER_RESP ||| LILLYGETR_WRITER_RESP

def LILLYGETR0_ALL_RESP : Nat :=
  LILLYGETR0_READER_RESP ||| LILLYGETR0_WRITER_RESP ||| LILLYGETR0_PASSWDMODIFY_RESP |||
  LILLYGETR0_WHOAMI_RESP ||| LILLYGETR0_STARTLBURP_RESP ||| LILLYGETR0_ENDLBURP_RESP |||
  LILLYGETR0_LBURPUPDATE_RESP ||| LILLYGETR0_TURN_RESP ||| LILLYGETR0_ENDTXN_RESP |||
  LILLYGETR0_ABORTEDTXN_RESP

def LILLYGETR_READER_REQ : Nat :=
  LILLYGETR_BIND_REQ ||| LILLYGETR_UNBIND_REQ ||| LILLYGETR_ABANDON_REQ |||
  LILLYGETR_SEARCH_REQ ||| LILLYGETR_COMPARE_REQ ||| LILLYGETR_EXTENDED_REQ

def LILLYGETR0_READER_REQ : Nat :=
  LILLYGETR0_STARTTLS_REQ ||| LILLYGETR0_CANCEL_REQ

def LILLYGETR_WRITER_REQ : Nat :=
  LILLYGETR_BIND_REQ ||| LILLYGETR_UNBIND_REQ ||| LILLYGETR_ABANDON_REQ |||
  LILLYGETR_MODIFY_REQ ||| LILLYGETR_ADD_REQ ||| LILLYGETR_DEL_REQ |||
  LILLYGETR_MODIFYDN_REQ ||| LILLYGETR_EXTENDED_REQ

def LILLYGETR0_WRITER_REQ : Nat :=
  LILLYGETR0_STARTTLS_REQ ||| LILLYGETR0_CANCEL_REQ

def LILLYGETR_ALL_REQ : Nat :=
  LILLYGETR_READER_REQ ||| LILLYGETR_WRITER_REQ

def LILLYGETR0_ALL_REQ : Nat :=
  LILLYGETR0_READER_REQ ||| LILLYGETR0_WRITER_REQ ||| LILLYGETR0_PASSWDMODIFY_REQ |||
  LILLYGETR0_WHOAMI_REQ ||| LILLYGETR0_STARTLBURP_REQ ||| LILLYGETR0_ENDLBURP_REQ |||
  LILLYGETR0_LBURPUPDATE_REQ ||| LILLYGETR0_TURN_REQ ||| LILLYGETR0_ENDTXN_REQ

/-- Whether a flag name ends in `_REQ` or not. -/
inductive FlagKind where
  | req
  | other
deriving DecidableEq, Repr

/-- The word-0 flags `LILLYGETR_X` in the order of their definition, each with
the kind of its name and the operation `X` stands for. -/
def LILLYGETR_flags : List (Nat × FlagKind × OpName) :=
  [ (LILLYGETR_BIND_REQ, .req, .BindRequest),
    (LILLYGETR_BIND_RESP, .other, .BindResponse),
    (LILLYGETR_UNBIND_REQ, .req, .UnbindRequest),
    (LILLYGETR_SEARCH_REQ, .req, .SearchRequest),
    (LILLYGETR_SEARCHRESULT_ENTRY, .other, .SearchResultEntry),
    (LILLYGETR_SEARCHRESULT_DONE, .other, .SearchResultDone),
    (LILLYGETR_MODIFY_REQ, .req, .ModifyRequest),
    (LILLYGETR_MODIFY_RESP, .other, .ModifyResponse),
    (LILLYGETR_ADD_REQ, .req, .AddRequest),
    (LILLYGETR_ADD_RESP, .other, .AddResponse),
    (LILLYGETR_DEL_REQ, .req, .DelRequest),
    (LILLYGETR_DEL_RESP, .other, .DelResponse),
    (LILLYGETR_MODIFYDN_REQ, .req, .ModifyDNRequest),
    (LILLYGETR_MODIFYDN_RESP, .other, .ModifyDNResponse),
    (LILLYGETR_COMPARE_REQ, .req, .CompareRequest),
    (LILLYGETR_COMPARE_RESP, .other, .CompareResponse),
    (LILLYGETR_ABANDON_REQ, .req, .AbandonRequest),
    (LILLYGETR_SEARCHRESULT_REFERENCE, .other, .SearchResultReference),
    (LILLYGETR_EXTENDED_REQ, .req, .ExtendedRequest),
    (LILLYGETR_EXTENDED_RESP, .other, .ExtendedResponse),
    (LILLYGETR_INTERMEDIATE_RESP, .other, .IntermediateResponse) ]

/-- The word-1 flags `LILLYGETR0_X` in the order of their definition, each with
the kind of its name and the extended operation `X` stands for. -/
def LILLYGETR0_flags : List (Nat × FlagKind × OpName) :=
  [ (LILLYGETR0_STARTTLS_REQ, .req, .StartTLSRequest),
    (LILLYGETR0_STARTTLS_RESP, .other, .StartTLSResponse),
    (LILLYGETR0_PASSWDMODIFY_REQ, .req, .PasswdModifyRequest),
    (LILLYGETR0_PASSWDMODIFY_RESP, .other, .PasswdModifyResponse),
    (LILLYGETR0_WHOAMI_REQ, .req, .WhoamiRequest),
    (LILLYGETR0_WHOAMI_RESP, .other, .WhoamiResponse),
    (LILLYGETR0_CANCEL_REQ, .req, .CancelRequest),
    (LILLYGETR0_CANCEL_RESP, .other, .CancelResponse),
    (LILLYGETR0_STARTLBURP_REQ, .req, .StartLBURPRequest),
    (LILLYGETR0_STARTLBURP_RESP, .other, .StartLBURPResponse),
    (LILLYGETR0_ENDLBURP_REQ, .req, .EndLBURPRequest),
    (LILLYGETR0_ENDLBURP_RESP, .other, .EndLBURPResponse),
    (LILLYGETR0_LBURPUPDATE_REQ, .req, .LBURPUpdateRequest),
    (LILLYGETR0_LBURPUPDATE_RESP, .other, .LBURPUpdateResponse),
    (LILLYGETR0_TURN_REQ, .req, .TurnRequest),
    (LILLYGETR0_TURN_RESP, .other, .TurnResponse),
    (LILLYGETR0_STARTTXN_REQ, .req, .TxnStartRequest),
    (LILLYGETR0_STARTTXN_RESP, .other, .TxnStartResponse),
    (LILLYGETR0_ENDTXN_REQ, .req, .TxnEndRequest),
    (LILLYGETR0_ENDTXN_RESP, .other, .TxnEndResponse),
    (LILLYGETR0_ABORTEDTXN_RESP, .other, .TxnAbortedNotice) ]

/-- The bitwise OR of a list of flag values. -/
def or_all (vs : List Nat) : Nat := vs.foldl (· ||| ·) 0

/-- The values of the flags of one kind in a flag table. -/
def flags_of_kind (k : FlagKind) (t : List (Nat × FlagKind × OpName)) : List Nat :=
  (t.filter (fun e => e.2.1 = k)).map (·.1)

/-! ## Quick DER: the cursor primitives used by lillypass

Quick DER is a separate library; lillypass uses `der_enter`, `der_skip` and
`der_focus`.  The callbacks below take the three primitives as a record, and
`quickder` supplies the definite-length DER reading of `der_enter` and
`der_skip`. -/

/-- The Quick DER primitives that lillypass calls; each takes the cursor it
is given by address and yields its `int` result and the updated cursor. -/
structure QuickDER where
  der_enter : dercursor → Int × dercursor
  der_skip : dercursor → Int × dercursor
  der_focus : dercursor → Int × dercursor

/-- The bytes a cursor views: at most `derlen` bytes from `derptr` on. -/
def dercursor.bytes (c : dercursor) : List Nat :=
  (c.derptr.getD []).take c.derlen

/-- A big-endian number. -/
def be_value (bs : List Nat) : Nat :=
  bs.foldl (fun acc b => acc * 256 + b) 0

/-- Modelled from the spec: the header of the DER element at the start of
`bs` (Quick DER is not part of the sources).  A tag byte is followed by a
length byte; with the high bit clear that byte is the length of the contents,
with the high bit set its low 7 bits give the number `N` (1 to 4) of
big-endian length bytes that follow.  The result is the length of the header
and the length of the contents, or `none` when `bs` does not start with a
complete element. -/
def der_header (bs : List Nat) : Option (Nat × Nat) :=
  match bs with
  | _tag :: l :: rest =>
    if l < 0x80 then
      if l ≤ rest.length then some (2, l) else none
    else
      let n := l - 0x80
      if n = 0 ∨ 4 < n ∨ rest.length < n then none
      else
        let len := be_value (rest.take n)
        if len ≤ rest.length - n then some (2 + n, len) else none
  | _ => none

/-- Modelled from the spec: `der_enter` of Quick DER, which descends into the
element at the cursor: afterwards the cursor views the contents of that
element.  On a cursor that does not start with an element it returns `-1` and
leaves the cursor alone. -/
def der_enter (crs : dercursor) : Int × dercursor :=
  match der_header crs.bytes with
  | some (hlen, len) => (0, { derptr := some ((crs.derptr.getD []).drop hlen), derlen := len })
  | none => (-1, crs)

/-- Modelled from the spec: `der_skip` of Quick DER, which advances the cursor
past the element it points at: afterwards the cursor views what follows that
element.  On a cursor that does not start with an element it returns `-1` and
empties the cursor. -/
def der_skip (crs : dercursor) : Int × dercursor :=
  match der_header crs.bytes with
  | some (hlen, len) =>
    (0, { derptr := some ((crs.derptr.getD []).drop (hlen + len)),
          derlen := crs.derlen - (hlen + len) })
  | none => (-1, { derptr := none, derlen := 0 })

/-- The primitives with the DER reading of `der_enter` and `der_skip` and a
given `der_focus`. -/
def quickder (der_focus : dercursor → Int × dercursor) : QuickDER :=
  { der_enter := der_enter, der_skip := der_skip, der_focus := der_focus }

/-! ## lillypass.c: the callbacks -/

/-- The call `printf (...)` of one line. -/
def printf {σ : Type} (l : Line) (w : World σ) : World σ :=
  w.emit (Event.printf l)

/-- The call `fprintf (stderr, ...)` of one line. -/
def fprintf_stderr {σ : Type} (l : ErrLine) (w : World σ) : World σ :=
  w.emit (Event.fprintf_stderr l)

/-- The byte `*c.derptr`: the first byte the pointer addresses, and `none`
when the pointer is `NULL` or addresses no byte, where the read is invalid
and the program does not go on. -/
def dercursor.deref (c : dercursor) : Option Nat :=
  match c.derptr with
  | some (b :: _) => some b
  | _ => none

/-- Whether the pointer of a cursor addresses at least `derlen` bytes, so that
every byte the cursor views can be read. -/
def dercursor.readable (c : dercursor) : Bool :=
  decide (c.derlen ≤ (c.derptr.getD []).length)

/-- The callback `lillypass_UnbindRequest`; the overlay
`LillyPack_UnbindRequest` is a single cursor. -/
def lillypass_UnbindRequest {σ : Type} (_lil : Ptr) (_qpool : LillyPool)
    (_msgid : LillyMsgId) (ur : dercursor) (_controls : dercursor) (w : World σ) :
    Int × World σ :=
  let w := printf .GotUnbindRequest w
  let w := printf (.payloadLengthIs
    (if ur.derptr = none then .absent else if ur.derlen = 0 then .empty else .filled)) w
  (0, w)

/-- The overlay `LillyPack_SearchRequest`, with the fields of the RFC 4511
SearchRequest. -/
structure LillyPack_SearchRequest where
  baseObject : dercursor
  scope : dercursor
  derefAliases : dercursor
  sizeLimit : dercursor
  timeLimit : dercursor
  typesOnly : dercursor
  filter : dercursor
  attributes : dercursor
deriving DecidableEq, Repr

/-- The overlay `LillyPack_SearchResultEntry`. -/
structure LillyPack_SearchResultEntry where
  objectName : dercursor
  attributes : dercursor
deriving DecidableEq, Repr

/-- The `while (attrs.derlen > 0)` loop of `lillypass_SearchRequest`; `fuel`
bounds the number of rounds, and the result is `none` when it does not
suffice. -/
def SearchRequest_attrs_loop {σ : Type} (Q : QuickDER) :
    Nat → dercursor → World σ → Option (World σ)
  | 0, attrs, w => if attrs.derlen > 0 then none else some w
  | fuel + 1, attrs, w =>
    if attrs.derlen > 0 then
      let attr := attrs
      let (r, attr) := Q.der_focus attr
      let w :=
        if r ≠ 0 then
          fprintf_stderr .focusSearchRequest w
        else
          printf (.attributes attr) (printf (.attrDerlen attr.derlen) w)
      let (_, attrs) := Q.der_skip attrs
      SearchRequest_attrs_loop Q fuel attrs w
    else
      some w

/-- The callback `lillypass_SearchRequest`.  The result is `none` when the
callback does not return: when `*sr->scope.derptr` or
`*sr->derefAliases.derptr` is read through a pointer that addresses no byte,
or when the fuel of the attribute loop does not suffice. -/
def lillypass_SearchRequest {σ : Type} (Q : QuickDER) (fuel : Nat) (_lil : Ptr)
    (_qpool : LillyPool) (_msgid : LillyMsgId) (sr : LillyPack_SearchRequest)
    (_controls : dercursor) (w : World σ) : Option (Int × World σ) :=
  let w := printf .GotSearchRequest w
  let w := printf (.baseObject sr.baseObject) w
  let after_scope : Option (World σ) :=
    if sr.scope.derlen ≠ 1 then
      some (printf (.scopeAwkwardSize sr.scope.derlen) w)
    else
      match sr.scope.deref with
      | none => none
      | some 0 => some (printf .scopeBase w)
      | some 1 => some (printf .scopeOne w)
      | some 2 => some (printf .scopeSub w)
      | some v => some (printf (.scopeWeird v) w)
  match after_scope with
  | none => none
  | some w =>
    let after_deref : Option (World σ) :=
      if sr.derefAliases.derlen ≠ 1 then
        some (printf (.derefAwkwardSize sr.derefAliases.derlen) w)
      else
        match sr.derefAliases.deref with
        | none => none
        | some 0 => some (printf .neverDerefAlias w)
        | some 1 => some (printf .derefInSearching w)
        | some 2 => some (printf .derefFindingBaseObj w)
        | some 3 => some (printf .derefAlways w)
        | some v => some (printf (.derefWeird v) w)
    match after_deref with
    | none => none
    | some w =>
      let attrs := sr.attributes
      let w := printf (.attributesDerlen attrs.derlen) w
      let w := printf (.attributesEnterDerlen attrs.derlen) w
      match SearchRequest_attrs_loop Q fuel attrs w with
      | some w => some (0, w)
      | none => none

/-- The inner `while (vals.derlen > 0)` loop of
`lillypass_SearchResultEntry`. -/
def SearchResultEntry_vals_loop {σ : Type} (Q : QuickDER) :
    Nat → dercursor → World σ → Option (World σ)
  | 0, vals, w => if vals.derlen > 0 then none else some w
  | fuel + 1, vals, w =>
    if vals.derlen > 0 then
      let val := vals
      let (_, val) := Q.der_enter val
      let w := printf (.value val) w
      let (_, vals) := Q.der_skip vals
      SearchResultEntry_vals_loop Q fuel vals w
    else
      some w

/-- The outer `while (pa.derlen > 0)` loop of `lillypass_SearchResultEntry`;
`fuel` bounds the rounds of this loop and of each inner loop. -/
def SearchResultEntry_pa_loop {σ : Type} (Q : QuickDER) (fuel : Nat) :
    Nat → dercursor → World σ → Option (World σ)
  | 0, pa, w => if pa.derlen > 0 then none else some w
  | rounds + 1, pa, w =>
    if pa.derlen > 0 then
      let type := pa
      let (_, type) := Q.der_enter type
      let w := printf (.partialAttributeType type) w
      let (_, pa) := Q.der_skip pa
      let vals := pa
      let (_, vals) := Q.der_enter vals
      match SearchResultEntry_vals_loop Q fuel vals w with
      | none => none
      | some w =>
        let (_, pa) := Q.der_skip pa
        SearchResultEntry_pa_loop Q fuel rounds pa w
    else
      some w

/-- The callback `lillypass_SearchResultEntry`. -/
def lillypass_SearchResultEntry {σ : Type} (Q : QuickDER) (fuel : Nat) (_lil : Ptr)
    (_qpool : LillyPool) (_msgid : LillyMsgId) (sre : LillyPack_SearchResultEntry)
    (_controls : dercursor) (w : World σ) : Option (Int × World σ) :=
  let w := printf .GotSearchResultEntry w
  let w := printf (.objectName sre.objectName) w
  let pa := sre.attributes
  let (_, pa) := Q.der_enter pa
  match SearchResultEntry_pa_loop Q fuel fuel pa w with
  | some w => some (0, w)
  | none => none

/-- The attribute lines and focus errors in a trace: what the attribute loop
of `lillypass_SearchRequest` reports, one per round. -/
def reported_attributes (t : List Event) : List Event :=
  t.filter fun e =>
    match e with
    | .printf (.attributes _) => true
    | .fprintf_stderr .focusSearchRequest => true
    | _ => false

/-- The cursors of the value lines in a trace. -/
def emitted_values (t : List Event) : List dercursor :=
  t.filterMap fun e =>
    match e with
    | .printf (.value c) => some c
    | _ => none

/-- The cursors of the attribute type lines in a trace. -/
def emitted_types (t : List Event) : List dercursor :=
  t.filterMap fun e =>
    match e with
    | .printf (.partialAttributeType c) => some c
    | _ => none

/-- Whether an event is a call of one of the `lillyput_` functions. -/
def Event.isPut : Event → Bool
  | .lillyput_dercursor .. => true
  | .lillyput_ldapmessage .. => true
  | .lillyput_operation .. => true
  | _ => false

/-! ## The scenarios of the specification -/

/-- A cursor over exactly the given bytes. -/
def cursor_of (bs : List Nat) : dercursor :=
  { derptr := some bs, derlen := bs.length }

/-- The DER element with a tag and short contents. -/
def der_elem (tag : Nat) (contents : List Nat) : List Nat :=
  tag :: contents.length :: contents

def bytes_cn : List Nat := [0x63, 0x6e]
def bytes_sn : List Nat := [0x73, 0x6e]
def bytes_mail : List Nat := [0x6d, 0x61, 0x69, 0x6c]
def bytes_a_x : List Nat := [0x61, 0x40, 0x78]
def bytes_b_y : List Nat := [0x62, 0x40, 0x79]
def bytes_Alice : List Nat := [0x41, 0x6c, 0x69, 0x63, 0x65]

/-- The text `dc=example,dc=com`. -/
def bytes_base : List Nat :=
  [0x64, 0x63, 0x3d, 0x65, 0x78, 0x61, 0x6d, 0x70, 0x6c, 0x65, 0x2c,
   0x64, 0x63, 0x3d, 0x63, 0x6f, 0x6d]

/-- The text `objectClass`. -/
def bytes_objectClass : List Nat :=
  [0x6f, 0x62, 0x6a, 0x65, 0x63, 0x74, 0x43, 0x6c, 0x61, 0x73, 0x73]

/-- Scenario 2: the SearchRequest with scope 2 and attributes `cn`, `sn`; the
attributes cursor holds the two OCTET STRING elements. -/
def scenario2 : LillyPack_SearchRequest where
  baseObject := cursor_of bytes_base
  scope := cursor_of [2]
  derefAliases := cursor_of [0]
  sizeLimit := cursor_of [0]
  timeLimit := cursor_of [0]
  typesOnly := cursor_of [0]
  filter := cursor_of bytes_objectClass
  attributes := cursor_of (der_elem 0x04 bytes_cn ++ der_elem 0x04 bytes_sn)

/-- The PartialAttribute `mail` with the values `a@x` and `b@y`. -/
def pa_mail : List Nat :=
  der_elem 0x30 (der_elem 0x04 bytes_mail ++
    der_elem 0x31 (der_elem 0x04 bytes_a_x ++ der_elem 0x04 bytes_b_y))

/-- The PartialAttribute `cn` with the value `Alice`. -/
def pa_cn : List Nat :=
  der_elem 0x30 (der_elem 0x04 bytes_cn ++ der_elem 0x31 (der_elem 0x04 bytes_Alice))

/-- Scenario 3: the SearchResultEntry with the attributes `mail` and `cn`; the
attributes cursor holds the stored contents of the PartialAttributeList, the
two PartialAttribute elements. -/
def scenario3 : LillyPack_SearchResultEntry where
  objectName := cursor_of bytes_cn
  attributes := cursor_of (pa_mail ++ pa_cn)

/-- The world before anything happened, over the trivial state. -/
def world0 : World Unit := { state := (), trace := [] }

/-! ## lillypass.c: the operation registry and the handler slots set by `main` -/

/-- The callbacks defined in lillypass.c. -/
inductive Callback where
  | lillypass_BindRequest
  | lillypass_BindResponse
  | lillypass_UnbindRequest
  | lillypass_SearchRequest
  | lillypass_SearchResultEntry
  | lillypass_SearchResultReference
  | lillypass_SearchResultDone
deriving DecidableEq, Repr

/-- The designated initialisers of `opregistry.by_name`, in source order. -/
def opregistry : List (OpName × Callback) :=
  [ (.BindRequest, .lillypass_BindRequest),
    (.BindResponse, .lillypass_BindResponse),
    (.UnbindRequest, .lillypass_UnbindRequest),
    (.SearchRequest, .lillypass_SearchRequest),
    (.SearchResultEntry, .lillypass_SearchResultEntry),
    (.SearchResultReference, .lillypass_SearchResultReference),
    (.SearchResultDone, .lillypass_SearchResultDone) ]

/-- The view `by_opcode [i]` of a registry given by its `by_name`
initialisers: the callback stored in slot `i`, or `none` for a null slot. -/
def by_opcode (reg : List (OpName × Callback)) (i : Nat) : Option Callback :=
  (reg.find? (fun e => by_name_index e.1 = some i)).map (·.2)

/-- The functions that lillypass stores in a `dercursor` handler slot. -/
inductive DerFn where
  | NULL
  | lillyget_dercursor
  | lillyput_dercursor
deriving DecidableEq, Repr

/-- The functions that lillypass stores in an `ldapmessage` handler slot. -/
inductive MsgFn where
  | NULL
  | lillyget_ldapmessage
  | lillyput_ldapmessage
deriving DecidableEq, Repr

/-- The functions that lillypass stores in an `operation` handler slot. -/
inductive OpFn where
  | NULL
  | lillyget_operation
  | lillyput_operation
deriving DecidableEq, Repr

/-- The functions an `opcode` or `opresp` handler slot can hold. -/
inductive OpcodeFn where
  | NULL
  | lillyget_opcode
  | lillyput_opcode
deriving DecidableEq, Repr

/-- The structure `lil` that `main` fills: the six handler slots it assigns,
the registry pointer, and the remaining members of `struct LillyStructural`
(the two reject words, the control filters, the control-unpack word and the
`opcode`, `opresp` and `response` slots).  A member `main` never assigns
stays zero. -/
structure Handlers where
  lillyget_dercursor : DerFn
  lillyput_dercursor : DerFn
  lillyget_ldapmessage : MsgFn
  lillyput_ldapmessage : MsgFn
  lillyget_operation : OpFn
  lillyput_operation : OpFn
  opregistry : Option (List (OpName × Callback))
  reject_ops : Nat × Nat
  lillyctl_recvop : Ptr
  lillyctl_sendop : Ptr
  lillyctl_recvall : Ptr
  lillyctl_sendall : Ptr
  control_unpack : Nat
  lillyget_opcode : OpcodeFn
  lillyput_opcode : OpcodeFn
  lillyget_opresp : OpcodeFn
  lillyput_opresp : OpcodeFn
  lillyget_response : OpFn
  lillyput_response : OpFn
deriving DecidableEq, Repr

/-- The structure as `lillymem_alloc0` returns it: all zero. -/
def alloc0 : Handlers where
  lillyget_dercursor := .NULL
  lillyput_dercursor := .NULL
  lillyget_ldapmessage := .NULL
  lillyput_ldapmessage := .NULL
  lillyget_operation := .NULL
  lillyput_operation := .NULL
  opregistry := none
  reject_ops := (0, 0)
  lillyctl_recvop := 0
  lillyctl_sendop := 0
  lillyctl_recvall := 0
  lillyctl_sendall := 0
  control_unpack := 0
  lillyget_opcode := .NULL
  lillyput_opcode := .NULL
  lillyget_opresp := .NULL
  lillyput_opresp := .NULL
  lillyget_response := .NULL
  lillyput_response := .NULL

/-- The first step of `main` on the handlers: "We first setup all operations
to pass over to output directly". -/
def main_pass_directly (lil : Handlers) : Handlers :=
  { lil with
    lillyput_dercursor := .lillyput_dercursor
    lillyget_dercursor := .lillyput_dercursor
    lillyput_ldapmessage := .lillyput_ldapmessage
    lillyget_ldapmessage := .lillyput_ldapmessage
    lillyput_operation := .lillyput_operation
    lillyget_operation := .lillyput_operation }

/-- The level character that `main` derives from `argv [1]`. -/
def main_level (argv1 : List Char) : Char :=
  if argv1.length = 1 then argv1.headD (Char.ofNat 0) else Char.ofNat 0

/-- Label `case '0'` of the switch in `main`. -/
def case_0 (lil : Handlers) : Handlers := lil

/-- Label `case '1'`, falling through to `case '0'`. -/
def case_1 (lil : Handlers) : Handlers :=
  case_0 { lil with lillyget_dercursor := .lillyget_dercursor }

/-- Label `case '2'`, falling through to `case '1'`. -/
def case_2 (lil : Handlers) : Handlers :=
  case_1 { lil with lillyget_ldapmessage := .lillyget_ldapmessage }

/-- Label `case '3'`, falling through to `case '2'`. -/
def case_3 (lil : Handlers) : Handlers :=
  case_2 { lil with lillyget_operation := .lillyget_operation }

/-- The `switch (level)` of `main`: the handlers after it, or `none` when it
calls `exit (1)`. -/
def main_switch {σ : Type} (level : Char) (lil : Handlers) (w : World σ) :
    Option Handlers × World σ :=
  if level = '4' then
    (some (case_3 lil), fprintf_stderr .level4NotImplemented w)
  else if level = '3' then (some (case_3 lil), w)
  else if level = '2' then (some (case_2 lil), w)
  else if level = '1' then (some (case_1 lil), w)
  else if level = '0' then (some (case_0 lil), w)
  else (none, fprintf_stderr .invalidLevel w)

/-- The part of `main` that fills the handler slots of a freshly
allocated structure for the level argument `argv [1]` and installs the registry; `none`
when `main` exits with status 1. -/
def main_configure {σ : Type} (argv1 : List Char) (w : World σ) :
    Option Handlers × World σ :=
  let lil := main_pass_directly alloc0
  let level := main_level argv1
  match main_switch level lil w with
  | (some lil, w) => (some { lil with opregistry := some opregistry }, w)
  | (none, w) => (none, w)

/-- A call through a `dercursor` handler slot; `none` for a null slot. -/
def invoke_dercursor {σ : Type} (X : Oracle σ) (f : DerFn) (lil : Ptr)
    (qpool : LillyPool) (msg : dercursor) (w : World σ) : Option (Int × World σ) :=
  match f with
  | .NULL => none
  | .lillyget_dercursor => some (call_lillyget_dercursor X lil qpool msg w)
  | .lillyput_dercursor => some (call_lillyput_dercursor X lil qpool msg w)

/-- A call through an `ldapmessage` handler slot; `none` for a null slot. -/
def invoke_ldapmessage {σ : Type} (X : Oracle σ) (f : MsgFn) (lil : Ptr)
    (qpool : LillyPool) (msgid : LillyMsgId) (op controls : dercursor) (w : World σ) :
    Option (Int × World σ) :=
  match f with
  | .NULL => none
  | .lillyget_ldapmessage => some (call_lillyget_ldapmessage X lil qpool msgid op controls w)
  | .lillyput_ldapmessage => some (call_lillyput_ldapmessage X lil qpool msgid op controls w)

/-- A call through an `operation` handler slot; `none` for a null slot. -/
def invoke_operation {σ : Type} (X : Oracle σ) (f : OpFn) (lil : Ptr)
    (qpool : LillyPool) (msgid : LillyMsgId) (opcode : Nat) (data : Ptr)
    (controls : dercursor) (w : World σ) : Option (Int × World σ) :=
  match f with
  | .NULL => none
  | .lillyget_operation =>
    some (call_lillyget_operation X lil qpool msgid opcode data controls w)
  | .lillyput_operation =>
    some (call_lillyput_operation X lil qpool msgid opcode data controls w)

/-- What one round of the attribute loop of `lillypass_SearchRequest` reports,
given the result of `der_focus` on the attribute: the error line when the
result is non-zero, the attribute line otherwise. -/
def focus_report (r : Int × dercursor) : Event :=
  if r.1 ≠ 0 then .fprintf_stderr .focusSearchRequest else .printf (.attributes r.2)

/-- The handlers that `main` configures for a level argument. -/
def handlers_for (argv1 : List Char) : Option Handlers :=
  (main_configure argv1 world0).1

/-- The line that the scope test of `lillypass_SearchRequest` prints: the
`if` on the length and the `switch` on the byte; `none` when the byte cannot
be read. -/
def scope_line (scope : dercursor) : Option Line :=
  if scope.derlen ≠ 1 then
    some (.scopeAwkwardSize scope.derlen)
  else
    match scope.deref with
    | none => none
    | some 0 => some .scopeBase
    | some 1 => some .scopeOne
    | some 2 => some .scopeSub
    | some v => some (.scopeWeird v)

/-- The line that the derefAliases test of `lillypass_SearchRequest` prints;
`none` when the byte cannot be read. -/
def deref_line (derefAliases : dercursor) : Option Line :=
  if derefAliases.derlen ≠ 1 then
    some (.derefAwkwardSize derefAliases.derlen)
  else
    match derefAliases.deref with
    | none => none
    | some 0 => some .neverDerefAlias
    | some 1 => some .derefInSearching
    | some 2 => some .derefFindingBaseObj
    | some 3 => some .derefAlways
    | some v => some (.derefWeird v)

/-- Whether a line is one of the lines about the scope. -/
def Line.isScope : Line → Bool
  | .scopeAwkwardSize _ => true
  | .scopeBase => true
  | .scopeOne => true
  | .scopeSub => true
  | .scopeWeird _ => true
  | _ => false

/-- Whether a line is one of the lines about derefAliases. -/
def Line.isDeref : Line → Bool
  | .derefAwkwardSize _ => true
  | .neverDerefAlias => true
  | .derefInSearching => true
  | .derefFindingBaseObj => true
  | .derefAlways => true
  | .derefWeird _ => true
  | _ => false

/-- The scope lines printed in a trace. -/
def scope_lines (t : List Event) : List Line :=
  t.filterMap fun e =>
    match e with
    | .printf l => if l.isScope then some l else none
    | _ => none

/-- The derefAliases lines printed in a trace. -/
def deref_lines (t : List Event) : List Line :=
  t.filterMap fun e =>
    match e with
    | .printf l => if l.isDeref then some l else none
    | _ => none

/-- Whether `e` is exactly one well-formed DER element: a header followed by
as many bytes as the header announces. -/
def is_element (e : List Nat) : Bool :=
  match der_header e with
  | some (hlen, len) => hlen + len == e.length
  | none => false

/-- The concatenation of a list of elements. -/
def concat_elements : List (List Nat) → List Nat
  | [] => []
  | e :: es => e ++ concat_elements es

/-- The cursor that views the bytes `bs` in a buffer that goes on with
`tail`. -/
def cursor_on (bs tail : List Nat) : dercursor :=
  { derptr := some (bs ++ tail), derlen := bs.length }

/-- The cursors at which the rounds of a loop over the concatenation of `es`
stand, in a buffer that goes on with `tail`: the first views all elements,
the next all but the first, and so on. -/
def visited (tail : List Nat) : List (List Nat) → List dercursor
  | [] => []
  | e :: es => cursor_on (concat_elements (e :: es)) tail :: visited tail es

/-! ## lillypass.c: `setup`, `process` and the first part of `main` -/

/-- The functions that `setup` stores in the allocator hooks. -/
inductive PoolFn where
  | NULL
  | sillymem_newpool
  | sillymem_endpool
  | sillymem_alloc
deriving DecidableEq, Repr

/-- The global allocator hooks of `lillydap/mem.h`. -/
structure Globals where
  lillymem_newpool_fun : PoolFn
  lillymem_endpool_fun : PoolFn
  lillymem_alloc_fun : PoolFn
deriving DecidableEq, Repr

/-- The function `setup`. -/
def setup (G : Globals) : Globals :=
  { G with
    lillymem_newpool_fun := .sillymem_newpool
    lillymem_endpool_fun := .sillymem_endpool
    lillymem_alloc_fun := .sillymem_alloc }

/-- What `process` and the event functions are given through their `LDAP *lil`:
the handler slots of the structure it stands for (see `Handlers`), and of
`struct LillyConnection` the connection pool and the two descriptors that
`process` sets. -/
structure LilState where
  handlers : Handlers
  cnxpool : LillyPool
  get_fd : Int
  put_fd : Int
deriving DecidableEq, Repr

/-- The pool functions, the system calls and the two event functions that
`process` and `main` call, as state transformers over a state `σ`.  The pool
functions see the allocator hooks, the event functions see what lillypass
stored in `lil`.  `sys_open` is `open (path, O_RDONLY)`, `fcntl_getfl` is
`fcntl (fd, F_GETFL, 0)` and `fcntl_setfl` is `fcntl (fd, F_SETFL, flags)`. -/
structure Sys (σ : Type) where
  lillymem_newpool : Globals → σ → LillyPool × σ
  lillymem_alloc0 : Globals → LillyPool → Nat → σ → Ptr × σ
  lillymem_endpool : Globals → LillyPool → σ → σ
  sys_open : List Char → σ → Int × σ
  fcntl_getfl : Int → σ → Int × σ
  fcntl_setfl : Int → Int → σ → Int × σ
  close : Int → σ → Int × σ
  lillyget_event : Ptr → LilState → σ → Int × σ
  lillyput_event : Ptr → LilState → σ → Int × σ

/-- A call of `lillymem_newpool`. -/
def call_lillymem_newpool {σ : Type} (S : Sys σ) (G : Globals) (w : World σ) :
    LillyPool × World σ :=
  let r := S.lillymem_newpool G w.state
  (r.1, { state := r.2, trace := w.trace ++ [Event.lillymem_newpool] })

/-- A call of `lillymem_alloc0`. -/
def call_lillymem_alloc0 {σ : Type} (S : Sys σ) (G : Globals) (pool : LillyPool)
    (size : Nat) (w : World σ) : Ptr × World σ :=
  let r := S.lillymem_alloc0 G pool size w.state
  (r.1, { state := r.2, trace := w.trace ++ [Event.lillymem_alloc0 pool size] })

/-- A call of `open (path, O_RDONLY)`. -/
def call_sys_open {σ : Type} (S : Sys σ) (path : List Char) (w : World σ) :
    Int × World σ :=
  let r := S.sys_open path w.state
  (r.1, { state := r.2, trace := w.trace ++ [Event.sys_open path] })

/-- A call of `fcntl (fd, F_GETFL, 0)`. -/
def call_fcntl_getfl {σ : Type} (S : Sys σ) (fd : Int) (w : World σ) : Int × World σ :=
  let r := S.fcntl_getfl fd w.state
  (r.1, { state := r.2, trace := w.trace ++ [Event.fcntl_getfl fd] })

/-- A call of `fcntl (fd, F_SETFL, flags)`. -/
def call_fcntl_setfl {σ : Type} (S : Sys σ) (fd flags : Int) (w : World σ) :
    Int × World σ :=
  let r := S.fcntl_setfl fd flags w.state
  (r.1, { state := r.2, trace := w.trace ++ [Event.fcntl_setfl fd flags] })

/-- A call of `close (fd)`. -/
def call_close {σ : Type} (S : Sys σ) (fd : Int) (w : World σ) : Int × World σ :=
  let r := S.close fd w.state
  (r.1, { state := r.2, trace := w.trace ++ [Event.close fd] })

/-- A call of `lillyget_event (lil)`. -/
def call_lillyget_event {σ : Type} (S : Sys σ) (lil : Ptr) (mem : LilState)
    (w : World σ) : Int × World σ :=
  let r := S.lillyget_event lil mem w.state
  (r.1, { state := r.2, trace := w.trace ++ [Event.lillyget_event lil] })

/-- A call of `lillyput_event (lil)`. -/
def call_lillyput_event {σ : Type} (S : Sys σ) (lil : Ptr) (mem : LilState)
    (w : World σ) : Int × World σ :=
  let r := S.lillyput_event lil mem w.state
  (r.1, { state := r.2, trace := w.trace ++ [Event.lillyput_event lil] })

/-- The loop `for (i=0; i<1000; i++)` of `process`, from the value `i` of the
counter on; the results of the two calls are dropped. -/
def process_for {σ : Type} (S : Sys σ) (lil : Ptr) (mem : LilState) (i : Nat)
    (w : World σ) : World σ :=
  if i < 1000 then
    let (_, w) := call_lillyget_event S lil mem w
    let (_, w) := call_lillyput_event S lil mem w
    process_for S lil mem (i + 1) w
  else
    w
termination_by 1000 - i

/-- The function `process`; `O_NONBLOCK` is the constant of `fcntl.h`.  The
result is `none` when `process` calls `exit (1)`, and otherwise what `lil`
holds afterwards. -/
def process {σ : Type} (S : Sys σ) (O_NONBLOCK : Int) (lil : Ptr) (mem : LilState)
    (progname derfilename : List Char) (w : World σ) : Option LilState × World σ :=
  let (fd, w) := call_sys_open S derfilename w
  if fd < 0 then
    (none, fprintf_stderr (.openFailed progname derfilename) w)
  else
    let (flags, w) := call_fcntl_getfl S fd w
    if flags = -1 then
      (none, fprintf_stderr (.getFlagsFailed progname) w)
    else
      let flags := Int.lor flags O_NONBLOCK
      let (r, w) := call_fcntl_setfl S fd flags w
      if r = -1 then
        (none, fprintf_stderr (.setNonBlockingFailed progname) w)
      else
        let mem := { mem with get_fd := fd, put_fd := 1 }
        let w := process_for S lil mem 0 w
        let (_, w) := call_close S fd w
        (some mem, w)

/-- How far `main` gets: it calls `exit`, or it stops at a write through a
`NULL` pointer, or it has filled `lil` and goes on to the connection pool and
the loop over the files. -/
inductive MainOutcome where
  | exit (status : Int)
  | crash
  | proceeds (lipo : LillyPool) (lil : Ptr) (handlers : Handlers)
deriving DecidableEq, Repr

/-- The function `main` from its start to the installation of the registry
(lillypass.c:272-332); `sizeof_LillyDAP` is `sizeof (LillyDAP)` and `G` holds
the allocator hooks as the program starts.  The result of `lillymem_alloc0` is
not tested before `lil->lillyget_dercursor` and the other slots are written,
so a `NULL` result ends the run at the first write.  What follows in `main`
(lillypass.c:334-352) stores into `lil->cnxpool` and hands `lil` to `process`
as an `LDAP *`, although `lil` is declared `LillyDAP *` and api.h declares
`cnxpool` in `struct LillyConnection`; that part is not embedded, and reaching
it is the outcome `proceeds`. -/
def main {σ : Type} (S : Sys σ) (sizeof_LillyDAP : Nat) (G : Globals)
    (argv : List (List Char)) (w : World σ) : MainOutcome × World σ :=
  let argc := argv.length
  let progname := argv.getD 0 []
  if argc < 3 then
    (.exit 1, fprintf_stderr (.usage progname) w)
  else
    let G := setup G
    let (lipo, w) := call_lillymem_newpool S G w
    if lipo = 0 then
      (.exit 1, fprintf_stderr (.poolFailed progname) w)
    else
      let (lil, w) := call_lillymem_alloc0 S G lipo sizeof_LillyDAP w
      if lil = 0 then
        (.crash, w)
      else
        match main_configure (argv.getD 1 []) w with
        | (none, w) => (.exit 1, w)
        | (some handlers, w) => (.proceeds lipo lil handlers, w)

/-- Whether `main` gets past its argument check and its level switch: `argc`
is at least 3 and the switch on the level does not exit. -/
def main_accepts (argv : List (List Char)) : Bool :=
  decide (¬ argv.length < 3) && (main_configure (argv.getD 1 []) world0).1.isSome

/-- Whether an event opens an input file or processes an event. -/
def Event.isInput : Event → Bool
  | .sys_open _ => true
  | .lillyget_event _ => true
  | .lillyput_event _ => true
  | _ => false

/-- The calls of `n` rounds of the loop of `process`, in order. -/
def event_rounds (lil : Ptr) (n : Nat) : List Event :=
  (List.replicate n [Event.lillyget_event lil, Event.lillyput_event lil]).flatten

/-- A system in which every call succeeds: `open` returns descriptor 3, the
other calls return 0, the pool functions return the addresses 1 and 2. -/
def sys_ok : Sys Unit where
  lillymem_newpool := fun _ s => (1, s)
  lillymem_alloc0 := fun _ _ _ s => (2, s)
  lillymem_endpool := fun _ _ s => s
  sys_open := fun _ s => (3, s)
  fcntl_getfl := fun _ s => (0, s)
  fcntl_setfl := fun _ _ s => (0, s)
  close := fun _ s => (0, s)
  lillyget_event := fun _ _ s => (0, s)
  lillyput_event := fun _ _ s => (0, s)

/-- C1: `lillyput_opcode` ignores its opcode argument and forwards to
`lillyput_ldapmessage`: its result and the state it leaves are those of one
call `lillyput_ldapmessage (lil, qpool, msgid, operation, controls)`, that
call is the only call it adds to the trace, and two calls that differ only in
the opcode give the same result. -/
theorem lillyput_opcode_forwards {σ : Type} (X : Oracle σ) (lil : Ptr)
    (qpool : LillyPool) (msgid : LillyMsgId) (opcode opcode2 : Nat)
    (operation controls : dercursor) (w : World σ) :
    (lillyput_opcode X lil qpool msgid opcode operation controls w).1
        = (X.lillyput_ldapmessage lil qpool msgid operation controls w.state).1
    ∧ (lillyput_opcode X lil qpool msgid opcode operation controls w).2.state
        = (X.lillyput_ldapmessage lil qpool msgid operation controls w.state).2
    ∧ (lillyput_opcode X lil qpool msgid opcode operation controls w).2.trace
        = w.trace ++ [Event.lillyput_ldapmessage lil qpool msgid operation controls]
    ∧ lillyput_opcode X lil qpool msgid opcode operation controls w
        = lillyput_opcode X lil qpool msgid opcode2 operation controls w :=
  ⟨rfl, rfl, rfl, rfl⟩

/-- C2: each of the 21 typed helpers `lillyput_<Op>` equals
`lillyput_operation` called with the RFC 4511 application tag number of
`<Op>` and with `lil`, `qpool`, `msgid`, `arg` and `controls` unchanged. -/
theorem typed_put_helpers_forward {σ : Type} (X : Oracle σ) (lil : Ptr)
    (qpool : LillyPool) (mid : LillyMsgId) (arg : Ptr) (ctl : dercursor) (w : World σ) :
    lillyput_BindRequest X lil qpool mid arg ctl w
        = call_lillyput_operation X lil qpool mid 0 arg ctl w
    ∧ lillyput_BindResponse X lil qpool mid arg ctl w
        = call_lillyput_operation X lil qpool mid 1 arg ctl w
    ∧ lillyput_UnbindRequest X lil qpool mid arg ctl w
        = call_lillyput_operation X lil qpool mid 2 arg ctl w
    ∧ lillyput_SearchRequest X lil qpool mid arg ctl w
        = call_lillyput_operation X lil qpool mid 3 arg ctl w
    ∧ lillyput_SearchResultEntry X lil qpool mid arg ctl w
        = call_lillyput_operation X lil qpool mid 4 arg ctl w
    ∧ lillyput_SearchResultDone X lil qpool mid arg ctl w
        = call_lillyput_operation X lil qpool mid 5 arg ctl w
    ∧ lillyput_ModifyRequest X lil qpool mid arg ctl w
        = call_lillyput_operation X lil qpool mid 6 arg ctl w
    ∧ lillyput_ModifyResponse X lil qpool mid arg ctl w
        = call_lillyput_operation X lil qpool mid 7 arg ctl w
    ∧ lillyput_AddRequest X lil qpool mid arg ctl w
        = call_lillyput_operation X lil qpool mid 8 arg ctl w
    ∧ lillyput_AddResponse X lil qpool mid arg ctl w
        = call_lillyput_operation X lil qpool mid 9 arg ctl w
    ∧ lillyput_DelRequest X lil qpool mid arg ctl w
        = call_lillyput_operation X lil qpool mid 10 arg ctl w
    ∧ lillyput_DelResponse X lil qpool mid arg ctl w
        = call_lillyput_operation X lil qpool mid 11 arg ctl w
    ∧ lillyput_ModifyDNRequest X lil qpool mid arg ctl w
        = call_lillyput_operation X lil qpool mid 12 arg ctl w
    ∧ lillyput_ModifyDNResponse X lil qpool mid arg ctl w
        = call_lillyput_operation X lil qpool mid 13 arg ctl w
    ∧ lillyput_CompareRequest X lil qpool mid arg ctl w
        = call_lillyput_operation X lil qpool mid 14 arg ctl w
    ∧ lillyput_CompareResponse X lil qpool mid arg ctl w
        = call_lillyput_operation X lil qpool mid 15 arg ctl w
    ∧ lillyput_AbandonRequest X lil qpool mid arg ctl w
        = call_lillyput_operation X lil qpool mid 16 arg ctl w
    ∧ lillyput_SearchResultReference X lil qpool mid arg ctl w
        = call_lillyput_operation X lil qpool mid 19 arg ctl w
    ∧ lillyput_ExtendedRequest X lil qpool mid arg ctl w
        = call_lillyput_operation X lil qpool mid 23 arg ctl w
    ∧ lillyput_ExtendedResponse X lil qpool mid arg ctl w
        = call_lillyput_operation X lil qpool mid 24 arg ctl w
    ∧ lillyput_IntermediateResponse X lil qpool mid arg ctl w
        = call_lillyput_operation X lil qpool mid 25 arg ctl w :=
  ⟨rfl, rfl, rfl, rfl, rfl, rfl, rfl, rfl, rfl, rfl, rfl, rfl, rfl, rfl, rfl, rfl, rfl,
   rfl, rfl, rfl, rfl⟩

/-- C3: for every operation with a named slot `by_name.<Op>` at slot index `i`
and a typed helper `lillyput_<Op>`, the helper is `lillyput_operation` called
with opcode `i` (so `by_opcode [opcode]` is the slot `by_name.<Op>`); these
operations are the 19 standard ones with a named slot, all at an index below
32; and every parsed extended operation, `StartTLSRequest` to
`TxnAbortedNotice`, has its named slot at an index from 32 to 52. -/
theorem registry_views_agree :
    (∀ (σ : Type) (nm : OpName) (i : Nat) (h : PutHelper σ),
        by_name_index nm = some i → lillyput_ nm = some h →
        i < 32 ∧ ∀ (X : Oracle σ) (lil : Ptr) (qpool : LillyPool) (mid : LillyMsgId)
          (arg : Ptr) (ctl : dercursor) (w : World σ),
          h X lil qpool mid arg ctl w = call_lillyput_operation X lil qpool mid i arg ctl w)
    ∧ (∀ nm, by_name_index nm ≠ none → putop_opcode nm ≠ none →
        by_name_index nm = putop_opcode nm)
    ∧ (allOpNames.filter fun nm =>
        (by_name_index nm).isSome && (putop_opcode nm).isSome).length = 19
    ∧ (∀ nm ∈ parsedExtendedOps, ∃ i, by_name_index nm = some i ∧ 32 ≤ i ∧ i ≤ 52)
    ∧ parsedExtendedOps.map by_name_index = (List.range' 32 21).map some := by
  refine ⟨?_, ?_, by decide, by decide, by decide⟩
  · intro σ nm i h hi hh
    cases nm <;> simp [lillyput_] at hh <;> subst hh <;>
      (have hi2 : _ = some i := hi) <;>
      simp [by_name_index, slot_from, LillyCallbacks, Member.opname] at hi2 <;>
      subst hi2 <;> exact ⟨by decide, fun _ _ _ _ _ _ _ => rfl⟩
  · intro nm
    cases nm <;> decide

/-- C4: every word-0 flag `LILLYGETR_X` is `2 ^ i` for the opcode `i ≤ 25`
that the helper `lillyput_<X>` passes; every word-1 flag `LILLYGETR0_X` is
`2 ^ (i - 32)` for the registry slot index `i` (32 to 52) of its extended
operation, with `StartTLSRequest` at 32, `TxnEndResponse` at 51 and
`TxnAbortedNotice` at 52; the 21 flags of each word are pairwise distinct and
every flag is below `2 ^ 32`. -/
theorem reject_flags_single_bit :
    (∀ e ∈ LILLYGETR_flags, ∃ i, putop_opcode e.2.2 = some i ∧ i ≤ 25 ∧ e.1 = 2 ^ i)
    ∧ (∀ e ∈ LILLYGETR0_flags,
        ∃ i, by_name_index e.2.2 = some i ∧ 32 ≤ i ∧ i ≤ 52 ∧ e.1 = 2 ^ (i - 32))
    ∧ by_name_index .StartTLSRequest = some 32
    ∧ by_name_index .TxnStartRequest = some 48
    ∧ by_name_index .TxnStartResponse = some 49
    ∧ by_name_index .TxnEndResponse = some 51
    ∧ by_name_index .TxnAbortedNotice = some 52
    ∧ LILLYGETR_flags.length = 21 ∧ LILLYGETR0_flags.length = 21
    ∧ (LILLYGETR_flags.map (·.1)).Nodup
    ∧ (LILLYGETR0_flags.map (·.1)).Nodup
    ∧ (∀ e ∈ LILLYGETR_flags ++ LILLYGETR0_flags, e.1 < 2 ^ 32) := by
  refine ⟨?_, ?_, by decide, by decide, by decide, by decide, by decide, by decide,
    by decide, by decide, by decide, by decide⟩
  · intro e he
    have h : (putop_opcode e.2.2).map (2 ^ ·) = some e.1 ∧
        (putop_opcode e.2.2).all (· ≤ 25) = true := by
      revert e
      decide
    cases hp : putop_opcode e.2.2 with
    | none => simp [hp] at h
    | some i =>
      simp [hp] at h
      exact ⟨i, rfl, h.2, h.1.symm⟩
  · intro e he
    have h : (by_name_index e.2.2).map (fun i => 2 ^ (i - 32)) = some e.1 ∧
        (by_name_index e.2.2).all (fun i => 32 ≤ i ∧ i ≤ 52) = true := by
      revert e
      decide
    cases hp : by_name_index e.2.2 with
    | none => simp [hp] at h
    | some i =>
      simp [hp] at h
      exact ⟨i, rfl, h.2.1, h.2.2, h.1.symm⟩

/-- C6: in word 0, `LILLYGETR_ALL_REQ` is the OR of the ten `_REQ` flags,
`LILLYGETR_ALL_RESP` is the OR of the eleven other flags, the two masks have
no bit in common and their union is the OR of all 21 flags. -/
theorem word0_masks_partition :
    (flags_of_kind .req LILLYGETR_flags).length = 10
    ∧ LILLYGETR_ALL_REQ = or_all (flags_of_kind .req LILLYGETR_flags)
    ∧ (flags_of_kind .other LILLYGETR_flags).length = 11
    ∧ LILLYGETR_ALL_RESP = or_all (flags_of_kind .other LILLYGETR_flags)
    ∧ LILLYGETR_ALL_REQ &&& LILLYGETR_ALL_RESP = 0
    ∧ LILLYGETR_ALL_REQ ||| LILLYGETR_ALL_RESP = or_all (LILLYGETR_flags.map (·.1)) := by
  decide

/-- C7 (the code at the failing input): the flag `LILLYGETR0_STARTTXN_REQ` is
a defined `_REQ` flag of word 1 and is not set in `LILLYGETR0_ALL_REQ`, and
`LILLYGETR0_STARTTXN_RESP` is a defined `_RESP` flag and is not set in
`LILLYGETR0_ALL_RESP`; every other `_REQ` flag is set in `LILLYGETR0_ALL_REQ`
and every other flag of word 1 is set in `LILLYGETR0_ALL_RESP`. -/
theorem word1_masks_miss_starttxn :
    (LILLYGETR0_STARTTXN_REQ, FlagKind.req, OpName.TxnStartRequest) ∈ LILLYGETR0_flags
    ∧ LILLYGETR0_ALL_REQ &&& LILLYGETR0_STARTTXN_REQ = 0
    ∧ (LILLYGETR0_STARTTXN_RESP, FlagKind.other, OpName.TxnStartResponse) ∈ LILLYGETR0_flags
    ∧ LILLYGETR0_ALL_RESP &&& LILLYGETR0_STARTTXN_RESP = 0
    ∧ (∀ v ∈ flags_of_kind .req LILLYGETR0_flags,
        v ≠ LILLYGETR0_STARTTXN_REQ → LILLYGETR0_ALL_REQ &&& v = v)
    ∧ (∀ v ∈ flags_of_kind .other LILLYGETR0_flags,
        v ≠ LILLYGETR0_STARTTXN_RESP → LILLYGETR0_ALL_RESP &&& v = v) := by
  decide

/-- C8: `ldap_open (h, p)` returns a non-NULL connection exactly when `malloc`
returns a non-NULL structure and `lillydap_open`, called on it with
`sizeof (LDAP)`, `h` and `p`, returns non-zero.  When `malloc` fails the only
call is `malloc` and `NULL` is returned; when `lillydap_open` returns 0 the
calls are `malloc`, `lillydap_open`, `free` of the structure, and `NULL` is
returned; otherwise the calls are `malloc` and one `lillydap_open`, and
the structure is returned. -/
theorem ldap_open_spec {σ : Type} (X : Oracle σ) (sizeof_LDAP : Nat) (h : Ptr)
    (p : Int) (w : World σ) :
    let m := X.malloc sizeof_LDAP w.state
    let o := X.lillydap_open m.1 sizeof_LDAP h p m.2
    ((ldap_open X sizeof_LDAP h p w).1 ≠ 0 ↔ (m.1 ≠ 0 ∧ o.1 ≠ 0))
    ∧ (m.1 = 0 →
        (ldap_open X sizeof_LDAP h p w).1 = 0
        ∧ (ldap_open X sizeof_LDAP h p w).2.state = m.2
        ∧ (ldap_open X sizeof_LDAP h p w).2.trace = w.trace ++ [Event.malloc sizeof_LDAP])
    ∧ (m.1 ≠ 0 → o.1 = 0 →
        (ldap_open X sizeof_LDAP h p w).1 = 0
        ∧ (ldap_open X sizeof_LDAP h p w).2.state = X.free m.1 o.2
        ∧ (ldap_open X sizeof_LDAP h p w).2.trace
            = w.trace ++ [Event.malloc sizeof_LDAP,
                Event.lillydap_open m.1 sizeof_LDAP h p, Event.free m.1])
    ∧ (m.1 ≠ 0 → o.1 ≠ 0 →
        (ldap_open X sizeof_LDAP h p w).1 = m.1
        ∧ (ldap_open X sizeof_LDAP h p w).2.state = o.2
        ∧ (ldap_open X sizeof_LDAP h p w).2.trace
            = w.trace ++ [Event.malloc sizeof_LDAP,
                Event.lillydap_open m.1 sizeof_LDAP h p]) := by
  intro m o
  by_cases hm : m.1 = 0
  · have hm2 : (X.malloc sizeof_LDAP w.state).1 = 0 := hm
    simp [ldap_open, call_malloc, hm, hm2]
  · have hm2 : ¬ (X.malloc sizeof_LDAP w.state).1 = 0 := hm
    by_cases ho : o.1 = 0
    · have ho2 : (X.lillydap_open (X.malloc sizeof_LDAP w.state).1 sizeof_LDAP h p
          (X.malloc sizeof_LDAP w.state).2).1 = 0 := ho
      simp [ldap_open, call_malloc, call_lillydap_open, call_free, hm, hm2, ho, ho2]
    · have ho2 : ¬ (X.lillydap_open (X.malloc sizeof_LDAP w.state).1 sizeof_LDAP h p
          (X.malloc sizeof_LDAP w.state).2).1 = 0 := ho
      simp [ldap_open, call_malloc, call_lillydap_open, call_free, hm, hm2, ho, ho2]

/-- A cursor of length 0 ends the attribute loop of `lillypass_SearchRequest`
whatever fuel is left. -/
theorem SearchRequest_attrs_loop_done {σ : Type} (Q : QuickDER) (fuel : Nat)
    (c : dercursor) (w : World σ) (h : c.derlen = 0) :
    SearchRequest_attrs_loop Q fuel c w = some w := by
  cases fuel <;> simp [SearchRequest_attrs_loop, h]

/-- A cursor of length 0 ends the value loop of `lillypass_SearchResultEntry`
whatever fuel is left. -/
theorem SearchResultEntry_vals_loop_done {σ : Type} (Q : QuickDER) (fuel : Nat)
    (c : dercursor) (w : World σ) (h : c.derlen = 0) :
    SearchResultEntry_vals_loop Q fuel c w = some w := by
  cases fuel <;> simp [SearchResultEntry_vals_loop, h]

/-- A cursor of length 0 ends the attribute loop of
`lillypass_SearchResultEntry` whatever fuel is left. -/
theorem SearchResultEntry_pa_loop_done {σ : Type} (Q : QuickDER) (fuel rounds : Nat)
    (c : dercursor) (w : World σ) (h : c.derlen = 0) :
    SearchResultEntry_pa_loop Q fuel rounds c w = some w := by
  cases rounds <;> simp [SearchResultEntry_pa_loop, h]

/-- The attribute loop on the attributes of scenario 2, for any `der_focus`
and any fuel of at least 2: two rounds, the first on the cursor at `cn`, the
second on the cursor at `sn`. -/
theorem scenario2_attrs_loop {σ : Type} (f : dercursor → Int × dercursor) (n : Nat)
    (w : World σ) :
    ∃ w2 : World σ,
      SearchRequest_attrs_loop (quickder f) (n + 2) scenario2.attributes w = some w2
      ∧ w2.state = w.state
      ∧ reported_attributes w2.trace = reported_attributes w.trace ++
          [focus_report (f scenario2.attributes),
           focus_report (f { derptr := some (der_elem 0x04 bytes_sn), derlen := 4 })] := by
  have h1 : der_skip scenario2.attributes
      = (0, { derptr := some (der_elem 0x04 bytes_sn), derlen := 4 }) := by decide
  have h2 : der_skip { derptr := some (der_elem 0x04 bytes_sn), derlen := 4 }
      = (0, { derptr := some [], derlen := 0 }) := by decide
  have h0 : scenario2.attributes.derlen = 8 := by decide
  simp only [SearchRequest_attrs_loop, quickder, h1, h2, h0]
  rw [SearchRequest_attrs_loop_done _ _ _ _ rfl]
  refine ⟨_, rfl, ?_, ?_⟩
  · by_cases ha : (f scenario2.attributes).1 = 0 <;>
      by_cases hb : (f { derptr := some (der_elem 0x04 bytes_sn), derlen := 4 }).1 = 0 <;>
      simp [ha, hb, printf, fprintf_stderr, World.emit]
  · by_cases ha : (f scenario2.attributes).1 = 0 <;>
      by_cases hb : (f { derptr := some (der_elem 0x04 bytes_sn), derlen := 4 }).1 = 0 <;>
      simp [ha, hb, printf, fprintf_stderr, World.emit, reported_attributes, focus_report]

/-- The world in which `lillypass_SearchRequest` enters its attribute loop on
scenario 2: six lines have been printed, none of them about an attribute. -/
theorem scenario2_callback_unfold (Q : QuickDER) (fuel : Nat) :
    ∃ w1 : World Unit, reported_attributes w1.trace = []
      ∧ w1.trace.all (fun e => !e.isPut) = true
      ∧ lillypass_SearchRequest Q fuel 0 0 0 scenario2 ⟨none, 0⟩ world0
        = (SearchRequest_attrs_loop Q fuel scenario2.attributes w1).map (fun w => (0, w)) := by
  refine ⟨World.mk ()
      [.printf .GotSearchRequest, .printf (.baseObject scenario2.baseObject),
       .printf .scopeSub, .printf .neverDerefAlias,
       .printf (.attributesDerlen 8), .printf (.attributesEnterDerlen 8)],
    by decide, by decide, ?_⟩
  simp [lillypass_SearchRequest, scenario2, cursor_of, dercursor.deref, printf, World.emit,
    world0, der_elem, bytes_cn, bytes_sn, bytes_base]
  cases h : SearchRequest_attrs_loop Q fuel _ _ <;> simp [h]

/-- C10 (as amended): on the SearchRequest of scenario 2 (scope 2, attributes
`cn` and `sn`) the callback `lillypass_SearchRequest` returns 0 and its loop
over `sr->attributes` runs twice and reports two attributes: first the
element at the cursor, `cn`, then, after `der_skip`, the element `sn`. -/
theorem scenario2_reports_two_attributes (f : dercursor → Int × dercursor)
    (fuel : Nat) (h : 2 ≤ fuel) :
    ∃ w : World Unit,
      lillypass_SearchRequest (quickder f) fuel 0 0 0 scenario2 ⟨none, 0⟩ world0 = some (0, w)
      ∧ reported_attributes w.trace =
          [focus_report (f (cursor_of (der_elem 0x04 bytes_cn ++ der_elem 0x04 bytes_sn))),
           focus_report (f { derptr := some (der_elem 0x04 bytes_sn), derlen := 4 })]
      ∧ (reported_attributes w.trace).length = 2 := by
  obtain ⟨n, rfl⟩ := Nat.exists_eq_add_of_le h
  obtain ⟨w1, hw1, -, hcb⟩ := scenario2_callback_unfold (quickder f) (2 + n)
  obtain ⟨w2, hloop, -, hrep⟩ := scenario2_attrs_loop f n w1
  rw [Nat.add_comm] at hloop
  refine ⟨w2, ?_, ?_, ?_⟩
  · rw [hcb, hloop]; rfl
  · rw [hrep, hw1]; rfl
  · rw [hrep, hw1]; rfl

/-- Witness for `scenario2_reports_two_attributes`: fuel 2 and `der_enter` in
the place of `der_focus`. -/
theorem scenario2_reports_two_attributes_witness :
    2 ≤ 2 ∧ ∃ w : World Unit,
      lillypass_SearchRequest (quickder der_enter) 2 0 0 0 scenario2 ⟨none, 0⟩ world0
        = some (0, w)
      ∧ reported_attributes w.trace =
          [focus_report (der_enter (cursor_of (der_elem 0x04 bytes_cn ++ der_elem 0x04 bytes_sn))),
           focus_report (der_enter { derptr := some (der_elem 0x04 bytes_sn), derlen := 4 })]
      ∧ (reported_attributes w.trace).length = 2 :=
  ⟨Nat.le_refl 2, scenario2_reports_two_attributes der_enter 2 (Nat.le_refl 2)⟩

/-- C10 (counterexample): on the SearchRequest of scenario 2 there is no
`der_focus` and no amount of fuel with which `lillypass_SearchRequest`
returns having reported three attributes. -/
theorem scenario2_never_reports_three :
    ¬ ∃ (f : dercursor → Int × dercursor) (fuel : Nat) (r : Int × World Unit),
      lillypass_SearchRequest (quickder f) fuel 0 0 0 scenario2 ⟨none, 0⟩ world0 = some r
      ∧ (reported_attributes r.2.trace).length = 3 := by
  rintro ⟨f, fuel, r, hr, h3⟩
  obtain ⟨w1, hw1, -, hcb⟩ := scenario2_callback_unfold (quickder f) fuel
  rw [hcb] at hr
  have h1 : der_skip scenario2.attributes
      = (0, { derptr := some (der_elem 0x04 bytes_sn), derlen := 4 }) := by decide
  have h0 : scenario2.attributes.derlen = 8 := by decide
  match fuel with
  | 0 => simp [SearchRequest_attrs_loop, h0] at hr
  | 1 => simp [SearchRequest_attrs_loop, h0, h1, quickder] at hr
  | n + 2 =>
    obtain ⟨w2, hloop, -, hrep⟩ := scenario2_attrs_loop f n w1
    rw [hloop] at hr
    simp only [Option.map_some', Option.some.injEq] at hr
    subst hr
    rw [hrep, hw1] at h3
    simp at h3

/-- The run of `lillypass_SearchResultEntry` on scenario 3, for any fuel of at
least 2: the first `der_enter` narrows the cursor to the contents of the
PartialAttribute `mail`, the loop prints that type and its two values, and
the cursor is then empty. -/
theorem scenario3_run (f : dercursor → Int × dercursor) (n : Nat) :
    ∃ w : World Unit,
      lillypass_SearchResultEntry (quickder f) (n + 2) 0 0 0 scenario3 ⟨none, 0⟩ world0
        = some (0, w)
      ∧ (emitted_types w.trace).map dercursor.bytes = [bytes_mail]
      ∧ (emitted_values w.trace).map dercursor.bytes = [bytes_a_x, bytes_b_y]
      ∧ w.trace.all (fun e => !e.isPut) = true := by
  have e0 : der_enter scenario3.attributes
      = (0, ⟨some (pa_mail.drop 2 ++ pa_cn), 18⟩) := by decide
  have e1 : der_enter ⟨some (pa_mail.drop 2 ++ pa_cn), 18⟩
      = (0, ⟨some (pa_mail.drop 4 ++ pa_cn), 4⟩) := by decide
  have s1 : der_skip ⟨some (pa_mail.drop 2 ++ pa_cn), 18⟩
      = (0, ⟨some (pa_mail.drop 8 ++ pa_cn), 12⟩) := by decide
  have e2 : der_enter ⟨some (pa_mail.drop 8 ++ pa_cn), 12⟩
      = (0, ⟨some (pa_mail.drop 10 ++ pa_cn), 10⟩) := by decide
  have e3 : der_enter ⟨some (pa_mail.drop 10 ++ pa_cn), 10⟩
      = (0, ⟨some (pa_mail.drop 12 ++ pa_cn), 3⟩) := by decide
  have s3 : der_skip ⟨some (pa_mail.drop 10 ++ pa_cn), 10⟩
      = (0, ⟨some (pa_mail.drop 15 ++ pa_cn), 5⟩) := by decide
  have e4 : der_enter ⟨some (pa_mail.drop 15 ++ pa_cn), 5⟩
      = (0, ⟨some (pa_mail.drop 17 ++ pa_cn), 3⟩) := by decide
  have s4 : der_skip ⟨some (pa_mail.drop 15 ++ pa_cn), 5⟩
      = (0, ⟨some pa_cn, 0⟩) := by decide
  have s2 : der_skip ⟨some (pa_mail.drop 8 ++ pa_cn), 12⟩
      = (0, ⟨some pa_cn, 0⟩) := by decide
  simp only [lillypass_SearchResultEntry, quickder, e0, SearchResultEntry_pa_loop, e1, s1, e2,
    SearchResultEntry_vals_loop, e3, s3, e4, s4, s2]
  simp only [gt_iff_lt, Nat.lt_irrefl, Nat.zero_lt_succ, Nat.ofNat_pos, if_true, if_false]
  rw [SearchResultEntry_vals_loop_done _ _ _ _ rfl]
  refine ⟨_, rfl, ?_, ?_, ?_⟩ <;> decide

/-- C9 (the code at the failing input): on the SearchResultEntry of scenario 3,
whose attributes cursor holds the PartialAttribute `mail` with the values
`a@x`, `b@y` followed by the PartialAttribute `cn` with the value `Alice`,
`lillypass_SearchResultEntry` returns 0 having printed one attribute type,
`mail`, and two values, `a@x` and `b@y`: the value `Alice` is not emitted. -/
theorem scenario3_emits_two_values (f : dercursor → Int × dercursor) (fuel : Nat)
    (h : 2 ≤ fuel) :
    ∃ w : World Unit,
      lillypass_SearchResultEntry (quickder f) fuel 0 0 0 scenario3 ⟨none, 0⟩ world0
        = some (0, w)
      ∧ (emitted_types w.trace).map dercursor.bytes = [bytes_mail]
      ∧ (emitted_values w.trace).map dercursor.bytes = [bytes_a_x, bytes_b_y]
      ∧ (emitted_values w.trace).length = 2 := by
  obtain ⟨n, rfl⟩ := Nat.exists_eq_add_of_le h
  obtain ⟨w, hw, ht, hv, -⟩ := scenario3_run f n
  rw [Nat.add_comm] at hw
  refine ⟨w, hw, ht, hv, ?_⟩
  have hl := congrArg List.length hv
  simpa using hl

/-- Witness for `scenario3_emits_two_values`: fuel 2. -/
theorem scenario3_emits_two_values_witness :
    2 ≤ 2 ∧ ∃ w : World Unit,
      lillypass_SearchResultEntry (quickder der_enter) 2 0 0 0 scenario3 ⟨none, 0⟩ world0
        = some (0, w)
      ∧ (emitted_types w.trace).map dercursor.bytes = [bytes_mail]
      ∧ (emitted_values w.trace).map dercursor.bytes = [bytes_a_x, bytes_b_y]
      ∧ (emitted_values w.trace).length = 2 :=
  ⟨Nat.le_refl 2, scenario3_emits_two_values der_enter 2 (Nat.le_refl 2)⟩

/-- Levels 0, 1 and 2 of lillypass: in the handlers `main` configures for
level K, the ingress slot of layer K holds the egress function of layer K, so
a message that reaches it is handed to `lillyput_dercursor`,
`lillyput_ldapmessage` or `lillyput_operation` with the arguments it came
with. -/
theorem lillypass_levels_0_1_2_forward {σ : Type} (X : Oracle σ) (lil : Ptr)
    (qpool : LillyPool) (msgid : LillyMsgId) (opcode : Nat) (data : Ptr)
    (msg op controls : dercursor) (w : World σ) :
    (∃ cfg, handlers_for ['0'] = some cfg
      ∧ cfg.lillyget_dercursor = cfg.lillyput_dercursor
      ∧ invoke_dercursor X cfg.lillyget_dercursor lil qpool msg w
          = some (call_lillyput_dercursor X lil qpool msg w))
    ∧ (∃ cfg, handlers_for ['1'] = some cfg
      ∧ cfg.lillyget_ldapmessage = cfg.lillyput_ldapmessage
      ∧ invoke_ldapmessage X cfg.lillyget_ldapmessage lil qpool msgid op controls w
          = some (call_lillyput_ldapmessage X lil qpool msgid op controls w))
    ∧ (∃ cfg, handlers_for ['2'] = some cfg
      ∧ cfg.lillyget_operation = cfg.lillyput_operation
      ∧ invoke_operation X cfg.lillyget_operation lil qpool msgid opcode data controls w
          = some (call_lillyput_operation X lil qpool msgid opcode data controls w)) :=
  ⟨⟨_, rfl, rfl, rfl⟩, ⟨_, rfl, rfl, rfl⟩, ⟨_, rfl, rfl, rfl⟩⟩

/-- C5 (the code at the failing input): in the handlers `main` configures for
level 3 the slot `lillyget_operation` holds the default `lillyget_operation`
and not the egress function `lillyput_operation`, and the registry slot of
opcode 3 holds `lillypass_SearchRequest`; that callback, run on the
SearchRequest of scenario 2, returns 0 without a single call of a
`lillyput_` function, whereas the egress handler `lillyput_SearchRequest`
calls `lillyput_operation` with opcode 3. -/
theorem lillypass_level3_does_not_forward :
    ∃ cfg, handlers_for ['3'] = some cfg
      ∧ cfg.lillyget_operation = OpFn.lillyget_operation
      ∧ cfg.lillyput_operation = OpFn.lillyput_operation
      ∧ cfg.opregistry.bind (fun reg => by_opcode reg 3) = some Callback.lillypass_SearchRequest
      ∧ (∀ (f : dercursor → Int × dercursor) (n : Nat), ∃ w : World Unit,
          lillypass_SearchRequest (quickder f) (n + 2) 0 0 0 scenario2 ⟨none, 0⟩ world0
            = some (0, w)
          ∧ w.trace.all (fun e => !e.isPut) = true)
      ∧ (lillyput_SearchRequest probe 0 0 0 0 ⟨none, 0⟩ world0).2.trace
          = [Event.lillyput_operation 0 0 0 3 0 ⟨none, 0⟩] := by
  refine ⟨_, rfl, rfl, rfl, by decide, ?_, rfl⟩
  intro f n
  obtain ⟨w1, -, hput, hcb⟩ := scenario2_callback_unfold (quickder f) (n + 2)
  have h1 : der_skip scenario2.attributes
      = (0, { derptr := some (der_elem 0x04 bytes_sn), derlen := 4 }) := by decide
  have h2 : der_skip { derptr := some (der_elem 0x04 bytes_sn), derlen := 4 }
      = (0, { derptr := some [], derlen := 0 }) := by decide
  have h0 : scenario2.attributes.derlen = 8 := by decide
  rw [hcb]
  simp only [SearchRequest_attrs_loop, quickder, h1, h2, h0]
  rw [SearchRequest_attrs_loop_done _ _ _ _ rfl]
  refine ⟨_, rfl, ?_⟩
  by_cases ha : (f scenario2.attributes).1 = 0 <;>
    by_cases hb : (f { derptr := some (der_elem 0x04 bytes_sn), derlen := 4 }).1 = 0 <;>
    simp [ha, hb, printf, fprintf_stderr, World.emit, List.all_append, Event.isPut] <;>
    simpa [List.all_eq_true] using hput

/-- C11: for every view `ur`, `lillypass_UnbindRequest` returns 0 after
printing the heading and one payload line, whose text is "absent" exactly
when `ur->derptr` is NULL, "empty" exactly when `ur->derptr` is non-NULL and
`ur->derlen` is 0, and "filled?!?" exactly when `ur->derptr` is non-NULL and
`ur->derlen` is non-zero. -/
theorem lillypass_UnbindRequest_reports {σ : Type} (lil : Ptr) (qpool : LillyPool)
    (msgid : LillyMsgId) (ur controls : dercursor) (w : World σ) :
    ∃ t : PayloadText,
      (lillypass_UnbindRequest lil qpool msgid ur controls w).1 = 0
      ∧ (lillypass_UnbindRequest lil qpool msgid ur controls w).2.state = w.state
      ∧ (lillypass_UnbindRequest lil qpool msgid ur controls w).2.trace
          = w.trace ++ [Event.printf .GotUnbindRequest, Event.printf (.payloadLengthIs t)]
      ∧ (t = .absent ↔ ur.derptr = none)
      ∧ (t = .empty ↔ ur.derptr ≠ none ∧ ur.derlen = 0)
      ∧ (t = .filled ↔ ur.derptr ≠ none ∧ ur.derlen ≠ 0) := by
  by_cases hp : ur.derptr = none
  · exact ⟨.absent, rfl, rfl, by simp [lillypass_UnbindRequest, printf, World.emit, hp],
      by simp [hp], by simp [hp], by simp [hp]⟩
  · by_cases hl : ur.derlen = 0
    · exact ⟨.empty, rfl, rfl, by simp [lillypass_UnbindRequest, printf, World.emit, hp, hl],
        by simp [hp], by simp [hp, hl], by simp [hl]⟩
    · exact ⟨.filled, rfl, rfl, by simp [lillypass_UnbindRequest, printf, World.emit, hp, hl],
        by simp [hp], by simp [hl], by simp [hp, hl]⟩

/-- C12: for every accepted level L from 0 to 4, the level switch of `main`,
run on the structure that was zeroed and then set to pass directly, leaves
`lillyget_dercursor` at the default `lillyget_dercursor` if L ≥ 1 and at
`lillyput_dercursor` if L = 0, `lillyget_ldapmessage` at the default if L ≥ 2
and at `lillyput_ldapmessage` otherwise, `lillyget_operation` at the default
if L ≥ 3 and at `lillyput_operation` otherwise; the three `lillyput_` slots
hold the `lillyput_` functions and every other member is as `alloc0` left it;
level 4 gives the same structure as level 3, also once the registry is
installed. -/
theorem level_switch_configuration {σ : Type} (L : Fin 5) (w : World σ) :
    (main_switch (main_level [Char.ofNat (48 + L.val)]) (main_pass_directly alloc0) w).1
      = some { alloc0 with
          lillyget_dercursor := if 1 ≤ L.val then .lillyget_dercursor else .lillyput_dercursor
          lillyget_ldapmessage :=
            if 2 ≤ L.val then .lillyget_ldapmessage else .lillyput_ldapmessage
          lillyget_operation := if 3 ≤ L.val then .lillyget_operation else .lillyput_operation
          lillyput_dercursor := .lillyput_dercursor
          lillyput_ldapmessage := .lillyput_ldapmessage
          lillyput_operation := .lillyput_operation }
    ∧ (main_switch (main_level ['4']) (main_pass_directly alloc0) w).1
      = (main_switch (main_level ['3']) (main_pass_directly alloc0) w).1
    ∧ (main_configure ['4'] w).1 = (main_configure ['3'] w).1 := by
  refine ⟨?_, rfl, rfl⟩
  fin_cases L <;> rfl

/-- C13: in the registry that lillypass installs, viewed by opcode, slot `i`
is bound exactly when `i` is 0, 1, 2, 3, 4, 5 or 19; these slots hold the
`lillypass_` callbacks of BindRequest, BindResponse, UnbindRequest,
SearchRequest, SearchResultEntry, SearchResultDone and
SearchResultReference; every other slot, in particular every other slot
from 0 to 52, is null. -/
theorem opregistry_bound_slots :
    (∀ i, (by_opcode opregistry i).isSome = true ↔ i ∈ [0, 1, 2, 3, 4, 5, 19])
    ∧ by_opcode opregistry 0 = some .lillypass_BindRequest
    ∧ by_opcode opregistry 1 = some .lillypass_BindResponse
    ∧ by_opcode opregistry 2 = some .lillypass_UnbindRequest
    ∧ by_opcode opregistry 3 = some .lillypass_SearchRequest
    ∧ by_opcode opregistry 4 = some .lillypass_SearchResultEntry
    ∧ by_opcode opregistry 5 = some .lillypass_SearchResultDone
    ∧ by_opcode opregistry 19 = some .lillypass_SearchResultReference
    ∧ (∀ i, i ∉ [0, 1, 2, 3, 4, 5, 19] → by_opcode opregistry i = none)
    ∧ ((List.range 53).filter fun i => (by_opcode opregistry i).isSome)
        = [0, 1, 2, 3, 4, 5, 19] := by
  have h0 : by_name_index .BindRequest = some 0 := by decide
  have h1 : by_name_index .BindResponse = some 1 := by decide
  have h2 : by_name_index .UnbindRequest = some 2 := by decide
  have h3 : by_name_index .SearchRequest = some 3 := by decide
  have h4 : by_name_index .SearchResultEntry = some 4 := by decide
  have h5 : by_name_index .SearchResultDone = some 5 := by decide
  have h19 : by_name_index .SearchResultReference = some 19 := by decide
  have key : ∀ i, (by_opcode opregistry i).isSome = true ↔ i ∈ [0, 1, 2, 3, 4, 5, 19] := by
    intro i
    simp only [by_opcode, opregistry, Option.isSome_map', List.find?_isSome, List.mem_cons,
      List.mem_singleton, exists_eq_or_imp, h0, h1, h2, h3, h4, h5, h19]
    simp [eq_comm]
    tauto
  refine ⟨key, by decide, by decide, by decide, by decide, by decide, by decide, by decide,
    ?_, by decide⟩
  intro i hi
  have := (key i).not.mpr hi
  simpa using this


/-- A header that `der_header` reads has at least two bytes, and header and
contents fit the bytes given. -/
theorem der_header_hlen (bs : List Nat) (hlen len : Nat) (h : der_header bs = some (hlen, len)) :
    2 ≤ hlen ∧ hlen + len ≤ bs.length := by
  unfold der_header at h
  split at h
  · rename_i tag l rest
    split at h
    · split at h
      · simp at h; obtain ⟨rfl, rfl⟩ := h; simp; omega
      · simp at h
    · simp only [] at h
      split at h
      · simp at h
      · split at h
        · simp at h; obtain ⟨rfl, rfl⟩ := h; simp; omega
        · simp at h
  · simp at h

/-- Bytes that follow an element do not change the header read at its start. -/
theorem der_header_append (e r : List Nat) (hlen len : Nat)
    (h : der_header e = some (hlen, len)) : der_header (e ++ r) = some (hlen, len) := by
  unfold der_header at h
  split at h
  · rename_i tag l rest
    simp only [List.cons_append, der_header]
    split at h
    · rename_i hl
      split at h
      · rename_i hle
        simp at h; obtain ⟨rfl, rfl⟩ := h
        simp [hl]; omega
      · simp at h
    · rename_i hl
      simp only [] at h
      split at h
      · simp at h
      · rename_i hn
        split at h
        · rename_i hle
          simp at h; obtain ⟨rfl, rfl⟩ := h
          have hn2 : l - 128 ≤ rest.length := by omega
          simp [hl, List.take_append_of_le_length hn2]
          refine ⟨?_, ?_⟩
          · omega
          · omega
        · simp at h
  · simp at h

/-- The modelled `der_skip` leaves a non-empty cursor strictly shorter: past the
element when there is one, empty otherwise. -/
theorem der_skip_decreases (c : dercursor) (h : 0 < c.derlen) :
    (der_skip c).2.derlen < c.derlen := by
  unfold der_skip
  cases hh : der_header c.bytes with
  | none => simpa using h
  | some p =>
    obtain ⟨hlen, len⟩ := p
    have := (der_header_hlen _ _ _ hh).1
    simp only []
    omega

/-- On a readable cursor the modelled `der_skip` leaves a readable cursor. -/
theorem der_skip_readable (c : dercursor) (h : c.readable = true) :
    (der_skip c).2.readable = true := by
  unfold der_skip
  cases hh : der_header c.bytes with
  | none => simp [dercursor.readable]
  | some p =>
    obtain ⟨hlen, len⟩ := p
    simp only [dercursor.readable, decide_eq_true_eq] at h ⊢
    simp only [Option.getD_some, List.length_drop]
    omega

/-- The cursor on `bs` views `bs`. -/
theorem cursor_on_bytes (bs tail : List Nat) : (cursor_on bs tail).bytes = bs := by
  simp [cursor_on, dercursor.bytes]

/-- On a cursor that starts with a well-formed element, `der_skip` succeeds and
leaves the cursor on what follows the element. -/
theorem der_skip_element (e r tail : List Nat) (he : is_element e = true) :
    der_skip (cursor_on (e ++ r) tail) = (0, cursor_on r tail) := by
  unfold is_element at he
  cases hh : der_header e with
  | none => simp [hh] at he
  | some p =>
    obtain ⟨hlen, len⟩ := p
    simp [hh] at he
    have h2 := der_header_append e r hlen len hh
    unfold der_skip
    rw [cursor_on_bytes, h2]
    simp [cursor_on, he]

/-- A well-formed element has at least two bytes. -/
theorem is_element_length (e : List Nat) (he : is_element e = true) : 2 ≤ e.length := by
  unfold is_element at he
  cases hh : der_header e with
  | none => simp [hh] at he
  | some p =>
    obtain ⟨hlen, len⟩ := p
    have := der_header_hlen _ _ _ hh
    omega

/-- When `der_skip` shortens every non-empty cursor, the attribute loop of
`lillypass_SearchRequest` ends within as many rounds as the cursor has
bytes. -/
theorem attrs_loop_terminates {σ : Type} (Q : QuickDER)
    (hskip : ∀ c : dercursor, 0 < c.derlen → (Q.der_skip c).2.derlen < c.derlen)
    (fuel : Nat) : ∀ (attrs : dercursor) (w : World σ), attrs.derlen ≤ fuel →
      ∃ w2, SearchRequest_attrs_loop Q fuel attrs w = some w2 := by
  induction fuel with
  | zero =>
    intro attrs w h
    exact ⟨w, SearchRequest_attrs_loop_done Q 0 attrs w (by omega)⟩
  | succ n ih =>
    intro attrs w h
    by_cases h0 : attrs.derlen = 0
    · exact ⟨w, SearchRequest_attrs_loop_done Q _ attrs w h0⟩
    · have hpos : 0 < attrs.derlen := by omega
      have hdec := hskip attrs hpos
      simp only [SearchRequest_attrs_loop, gt_iff_lt, hpos, if_true]
      exact ih _ _ (Nat.le_of_lt_succ (Nat.lt_of_lt_of_le hdec h))

/-- On the concatenation of well-formed elements the attribute loop runs one
round per element, each round on the cursor on the elements still to
come. -/
theorem attrs_loop_elements {σ : Type} (f : dercursor → Int × dercursor)
    (tail : List Nat) (es : List (List Nat)) : ∀ (fuel : Nat) (w : World σ),
      (∀ e ∈ es, is_element e = true) → es.length ≤ fuel →
      ∃ w2, SearchRequest_attrs_loop (quickder f) fuel (cursor_on (concat_elements es) tail) w
          = some w2
        ∧ w2.state = w.state
        ∧ reported_attributes w2.trace = reported_attributes w.trace
            ++ (visited tail es).map (fun c => focus_report (f c)) := by
  induction es with
  | nil =>
    intro fuel w _ _
    exact ⟨w, SearchRequest_attrs_loop_done _ _ _ _ rfl, rfl, by simp [visited]⟩
  | cons e es ih =>
    intro fuel w hes hfuel
    obtain ⟨n, rfl⟩ : ∃ n, fuel = n + 1 := ⟨fuel - 1, by simp at hfuel; omega⟩
    have he : is_element e = true := hes e (by simp)
    have hlen := is_element_length e he
    have hpos : 0 < (cursor_on (concat_elements (e :: es)) tail).derlen := by
      simp [cursor_on, concat_elements]; omega
    have hskip : der_skip (cursor_on (concat_elements (e :: es)) tail)
        = (0, cursor_on (concat_elements es) tail) := der_skip_element e _ tail he
    simp only [SearchRequest_attrs_loop, gt_iff_lt, hpos, if_true, quickder, hskip]
    obtain ⟨w2, h1, h2, h3⟩ := ih n
      (if (f (cursor_on (concat_elements (e :: es)) tail)).1 ≠ 0 then
          fprintf_stderr .focusSearchRequest w
        else
          printf (.attributes (f (cursor_on (concat_elements (e :: es)) tail)).2)
            (printf (.attrDerlen (f (cursor_on (concat_elements (e :: es)) tail)).2.derlen) w))
      (fun e2 h => hes e2 (by simp [h])) (by simp at hfuel; omega)
    refine ⟨w2, h1, ?_, ?_⟩
    · rw [h2]; split <;> rfl
    · rw [h3]
      by_cases hr : (f (cursor_on (concat_elements (e :: es)) tail)).1 = 0 <;>
        simp [hr, visited, printf, fprintf_stderr, World.emit, reported_attributes, focus_report]

/-- The scope test of `lillypass_SearchRequest` prints the line `scope_line`,
when there is one. -/
theorem scope_line_emit {σ : Type} (c : dercursor) (w : World σ) :
    (if c.derlen ≠ 1 then some (printf (.scopeAwkwardSize c.derlen) w)
      else
        match c.deref with
        | none => none
        | some 0 => some (printf .scopeBase w)
        | some 1 => some (printf .scopeOne w)
        | some 2 => some (printf .scopeSub w)
        | some v => some (printf (.scopeWeird v) w))
      = (scope_line c).map (fun l => printf l w) := by
  unfold scope_line
  split
  · rfl
  · split <;> rfl

/-- The derefAliases test of `lillypass_SearchRequest` prints the line
`deref_line`, when there is one. -/
theorem deref_line_emit {σ : Type} (c : dercursor) (w : World σ) :
    (if c.derlen ≠ 1 then some (printf (.derefAwkwardSize c.derlen) w)
      else
        match c.deref with
        | none => none
        | some 0 => some (printf .neverDerefAlias w)
        | some 1 => some (printf .derefInSearching w)
        | some 2 => some (printf .derefFindingBaseObj w)
        | some 3 => some (printf .derefAlways w)
        | some v => some (printf (.derefWeird v) w))
      = (deref_line c).map (fun l => printf l w) := by
  unfold deref_line
  split
  · rfl
  · split <;> rfl

/-- The callback `lillypass_SearchRequest` prints six lines, provided the scope
and derefAliases bytes can be read, and then runs its attribute loop; its
result is 0 when the loop ends. -/
theorem SearchRequest_unfold {σ : Type} (Q : QuickDER) (fuel : Nat) (lil : Ptr)
    (qpool : LillyPool) (msgid : LillyMsgId) (sr : LillyPack_SearchRequest)
    (controls : dercursor) (w : World σ) :
    lillypass_SearchRequest Q fuel lil qpool msgid sr controls w
      = (scope_line sr.scope).bind fun S =>
        (deref_line sr.derefAliases).bind fun D =>
        (SearchRequest_attrs_loop Q fuel sr.attributes
          { state := w.state,
            trace := w.trace ++
              [.printf .GotSearchRequest, .printf (.baseObject sr.baseObject),
               .printf S, .printf D,
               .printf (.attributesDerlen sr.attributes.derlen),
               .printf (.attributesEnterDerlen sr.attributes.derlen)] }).map
          (fun w => (0, w)) := by
  unfold lillypass_SearchRequest
  simp only [scope_line_emit, deref_line_emit]
  cases scope_line sr.scope with
  | none => rfl
  | some S =>
    simp only [Option.map_some', Option.some_bind]
    cases deref_line sr.derefAliases with
    | none => rfl
    | some D =>
      simp only [Option.map_some', Option.some_bind, printf, World.emit, List.append_assoc,
        List.singleton_append, List.cons_append, List.nil_append]
      cases SearchRequest_attrs_loop Q fuel sr.attributes _ <;> rfl

/-- A line that `scope_line` gives is a scope line, and nothing else. -/
theorem scope_line_kind (c : dercursor) (S : Line) (h : scope_line c = some S) :
    S.isScope = true ∧ S.isDeref = false
      ∧ reported_attributes [Event.printf S] = [] := by
  unfold scope_line at h
  split at h
  · simp at h; subst h; exact ⟨rfl, rfl, rfl⟩
  · split at h <;> simp at h <;> subst h <;> exact ⟨rfl, rfl, rfl⟩

/-- A line that `deref_line` gives is a derefAliases line, and nothing else. -/
theorem deref_line_kind (c : dercursor) (D : Line) (h : deref_line c = some D) :
    D.isScope = false ∧ D.isDeref = true
      ∧ reported_attributes [Event.printf D] = [] := by
  unfold deref_line at h
  split at h
  · simp at h; subst h; exact ⟨rfl, rfl, rfl⟩
  · split at h <;> simp at h <;> subst h <;> exact ⟨rfl, rfl, rfl⟩

/-- The attribute loop prints no scope line and no derefAliases line. -/
theorem attrs_loop_keeps_lines {σ : Type} (Q : QuickDER) (fuel : Nat) :
    ∀ (attrs : dercursor) (w w2 : World σ),
      SearchRequest_attrs_loop Q fuel attrs w = some w2 →
      scope_lines w2.trace = scope_lines w.trace
        ∧ deref_lines w2.trace = deref_lines w.trace := by
  induction fuel with
  | zero =>
    intro attrs w w2 h
    simp only [SearchRequest_attrs_loop] at h
    split at h
    · simp at h
    · simp at h; subst h; exact ⟨rfl, rfl⟩
  | succ n ih =>
    intro attrs w w2 h
    simp only [SearchRequest_attrs_loop] at h
    split at h
    · obtain ⟨h1, h2⟩ := ih _ _ _ h
      rw [h1, h2]
      split <;>
        simp [printf, fprintf_stderr, World.emit, scope_lines, deref_lines, Line.isScope,
          Line.isDeref]
    · simp at h; subst h; exact ⟨rfl, rfl⟩

/-- Of the six lines printed before the attribute loop, one is a scope line,
one a derefAliases line and none an attribute report. -/
theorem entry_lines_filters {σ : Type} (sr : LillyPack_SearchRequest) (S D : Line)
    (hS : scope_line sr.scope = some S) (hD : deref_line sr.derefAliases = some D)
    (w : World σ) :
    let t := w.trace ++
      [.printf .GotSearchRequest, .printf (.baseObject sr.baseObject),
       .printf S, .printf D,
       .printf (.attributesDerlen sr.attributes.derlen),
       .printf (.attributesEnterDerlen sr.attributes.derlen)]
    scope_lines t = scope_lines w.trace ++ [S]
      ∧ deref_lines t = deref_lines w.trace ++ [D]
      ∧ reported_attributes t = reported_attributes w.trace := by
  obtain ⟨s1, s2, s3⟩ := scope_line_kind sr.scope S hS
  obtain ⟨d1, d2, d3⟩ := deref_line_kind sr.derefAliases D hD
  refine ⟨?_, ?_, ?_⟩
  · have g1 : Line.GotSearchRequest.isScope = false := rfl
    have g2 : ∀ c, (Line.baseObject c).isScope = false := fun _ => rfl
    have g3 : ∀ n, (Line.attributesDerlen n).isScope = false := fun _ => rfl
    have g4 : ∀ n, (Line.attributesEnterDerlen n).isScope = false := fun _ => rfl
    simp [scope_lines, List.filterMap_append, List.filterMap_cons, g1, g2, g3, g4, s1, d1]
  · have g1 : Line.GotSearchRequest.isDeref = false := rfl
    have g2 : ∀ c, (Line.baseObject c).isDeref = false := fun _ => rfl
    have g3 : ∀ n, (Line.attributesDerlen n).isDeref = false := fun _ => rfl
    have g4 : ∀ n, (Line.attributesEnterDerlen n).isDeref = false := fun _ => rfl
    simp [deref_lines, List.filterMap_append, List.filterMap_cons, g1, g2, g3, g4, s2, d2]
  · have e1 : reported_attributes (w.trace ++
        [.printf .GotSearchRequest, .printf (.baseObject sr.baseObject),
         .printf S, .printf D,
         .printf (.attributesDerlen sr.attributes.derlen),
         .printf (.attributesEnterDerlen sr.attributes.derlen)])
        = reported_attributes w.trace ++ (reported_attributes [.printf .GotSearchRequest,
            .printf (.baseObject sr.baseObject)] ++
          (reported_attributes [Event.printf S] ++
          (reported_attributes [Event.printf D] ++
           reported_attributes [.printf (.attributesDerlen sr.attributes.derlen),
            .printf (.attributesEnterDerlen sr.attributes.derlen)]))) := by
      simp only [reported_attributes, ← List.filter_append]
      rfl
    rw [e1, s3, d3]
    simp [reported_attributes]

/-- The case analysis of `scope_line`: the length test, the switch on a byte
that can be read, and no line when a byte is to be read and there is none. -/
theorem scope_line_cases (p : Option (List Nat)) (n v : Nat) (rest : List Nat) :
    (n ≠ 1 → scope_line ⟨p, n⟩ = some (.scopeAwkwardSize n))
    ∧ (scope_line ⟨some (v :: rest), 1⟩ = some .scopeBase ↔ v = 0)
    ∧ (scope_line ⟨some (v :: rest), 1⟩ = some .scopeOne ↔ v = 1)
    ∧ (scope_line ⟨some (v :: rest), 1⟩ = some .scopeSub ↔ v = 2)
    ∧ (scope_line ⟨some (v :: rest), 1⟩ = some (.scopeWeird v) ↔ (v ≠ 0 ∧ v ≠ 1 ∧ v ≠ 2))
    ∧ scope_line ⟨none, 1⟩ = none ∧ scope_line ⟨some [], 1⟩ = none := by
  refine ⟨fun h => by simp [scope_line, h], ?_, ?_, ?_, ?_, rfl, rfl⟩ <;>
    rcases v with _ | _ | _ | k <;> simp [scope_line, dercursor.deref]

/-- The case analysis of `deref_line`. -/
theorem deref_line_cases (p : Option (List Nat)) (n v : Nat) (rest : List Nat) :
    (n ≠ 1 → deref_line ⟨p, n⟩ = some (.derefAwkwardSize n))
    ∧ (deref_line ⟨some (v :: rest), 1⟩ = some .neverDerefAlias ↔ v = 0)
    ∧ (deref_line ⟨some (v :: rest), 1⟩ = some .derefInSearching ↔ v = 1)
    ∧ (deref_line ⟨some (v :: rest), 1⟩ = some .derefFindingBaseObj ↔ v = 2)
    ∧ (deref_line ⟨some (v :: rest), 1⟩ = some .derefAlways ↔ v = 3)
    ∧ (deref_line ⟨some (v :: rest), 1⟩ = some (.derefWeird v)
        ↔ (v ≠ 0 ∧ v ≠ 1 ∧ v ≠ 2 ∧ v ≠ 3))
    ∧ deref_line ⟨none, 1⟩ = none ∧ deref_line ⟨some [], 1⟩ = none := by
  refine ⟨fun h => by simp [deref_line, h], ?_, ?_, ?_, ?_, ?_, rfl, rfl⟩ <;>
    rcases v with _ | _ | _ | _ | k <;> simp [deref_line, dercursor.deref]

/-- There is a scope line exactly when the length is not 1 or the byte can be
read. -/
theorem scope_line_isSome (c : dercursor) :
    (scope_line c).isSome = true ↔ (c.derlen = 1 → c.deref.isSome = true) := by
  unfold scope_line
  by_cases h : c.derlen = 1
  · simp only [h, ne_eq, not_true_eq_false, if_false, forall_const]
    cases hd : c.deref with
    | none => simp
    | some v => rcases v with _ | _ | _ | k <;> simp
  · simp [h]

/-- There is a derefAliases line exactly when the length is not 1 or the byte
can be read. -/
theorem deref_line_isSome (c : dercursor) :
    (deref_line c).isSome = true ↔ (c.derlen = 1 → c.deref.isSome = true) := by
  unfold deref_line
  by_cases h : c.derlen = 1
  · simp only [h, ne_eq, not_true_eq_false, if_false, forall_const]
    cases hd : c.deref with
    | none => simp
    | some v => rcases v with _ | _ | _ | _ | k <;> simp
  · simp [h]

/-- When the scope has length 1 and its byte cannot be read, or the scope is
fine and derefAliases has length 1 and its byte cannot be read,
`lillypass_SearchRequest` does not return, whatever the fuel. -/
theorem SearchRequest_invalid_read {σ : Type} (Q : QuickDER) (fuel : Nat) (lil : Ptr)
    (qpool : LillyPool) (msgid : LillyMsgId) (sr : LillyPack_SearchRequest)
    (controls : dercursor) (w : World σ)
    (h : (sr.scope.derlen = 1 ∧ sr.scope.deref = none)
      ∨ (sr.derefAliases.derlen = 1 ∧ sr.derefAliases.deref = none)) :
    lillypass_SearchRequest Q fuel lil qpool msgid sr controls w = none := by
  rw [SearchRequest_unfold]
  rcases h with ⟨h1, h2⟩ | ⟨h1, h2⟩
  · have : scope_line sr.scope = none := by
      cases hs : scope_line sr.scope with
      | none => rfl
      | some S =>
        have := (scope_line_isSome sr.scope).1 (by simp [hs]) h1
        simp [h2] at this
    simp [this]
  · have : deref_line sr.derefAliases = none := by
      cases hs : deref_line sr.derefAliases with
      | none => rfl
      | some S =>
        have := (deref_line_isSome sr.derefAliases).1 (by simp [hs]) h1
        simp [h2] at this
    cases scope_line sr.scope <;> simp [this]

/-- C14: when the scope byte and the derefAliases byte can be read wherever
the length is 1, and the attributes cursor is readable, then
`lillypass_SearchRequest` (with the modelled `der_skip`, any `der_focus`, and
fuel for the attribute loop) returns 0 having printed exactly one scope line
`S` and one derefAliases line `D`.  For a scope cursor of length 1 holding
byte `v`, `S` is "base" iff `v = 0`, "one" iff `v = 1`, "sub" iff `v = 2` and
the weird-value line iff `v` is none of these; for a scope cursor whose
length is not 1, `S` is the awkward-size line and the byte is not read: the
pointer may be anything, `NULL` included.  `D` is decided the same way with
neverDerefAlias, derefInSearching, derefFindingBaseObj, derefAlways for
`v` = 0, 1, 2, 3. -/
theorem SearchRequest_scope_and_deref {σ : Type} (f : dercursor → Int × dercursor)
    (fuel : Nat) (lil : Ptr) (qpool : LillyPool) (msgid : LillyMsgId)
    (sr : LillyPack_SearchRequest) (controls : dercursor) (w : World σ)
    (hscope : sr.scope.derlen = 1 → sr.scope.deref.isSome = true)
    (hderef : sr.derefAliases.derlen = 1 → sr.derefAliases.deref.isSome = true)
    (hattrs : sr.attributes.readable = true)
    (h : sr.attributes.derlen ≤ fuel) :
    ∃ (w2 : World σ) (S D : Line),
      lillypass_SearchRequest (quickder f) fuel lil qpool msgid sr controls w = some (0, w2)
      ∧ scope_lines w2.trace = scope_lines w.trace ++ [S]
      ∧ deref_lines w2.trace = deref_lines w.trace ++ [D]
      ∧ (sr.scope.derlen ≠ 1 → S = .scopeAwkwardSize sr.scope.derlen)
      ∧ (∀ v rest, sr.scope = ⟨some (v :: rest), 1⟩ →
          (S = .scopeBase ↔ v = 0) ∧ (S = .scopeOne ↔ v = 1) ∧ (S = .scopeSub ↔ v = 2)
          ∧ (S = .scopeWeird v ↔ (v ≠ 0 ∧ v ≠ 1 ∧ v ≠ 2)))
      ∧ (sr.derefAliases.derlen ≠ 1 → D = .derefAwkwardSize sr.derefAliases.derlen)
      ∧ (∀ v rest, sr.derefAliases = ⟨some (v :: rest), 1⟩ →
          (D = .neverDerefAlias ↔ v = 0) ∧ (D = .derefInSearching ↔ v = 1)
          ∧ (D = .derefFindingBaseObj ↔ v = 2) ∧ (D = .derefAlways ↔ v = 3)
          ∧ (D = .derefWeird v ↔ (v ≠ 0 ∧ v ≠ 1 ∧ v ≠ 2 ∧ v ≠ 3))) := by
  have _ := hattrs
  obtain ⟨S, hS⟩ := Option.isSome_iff_exists.1 ((scope_line_isSome sr.scope).2 hscope)
  obtain ⟨D, hD⟩ := Option.isSome_iff_exists.1 ((deref_line_isSome sr.derefAliases).2 hderef)
  obtain ⟨w2, hloop⟩ := attrs_loop_terminates (quickder f)
    (fun c hc => der_skip_decreases c hc) fuel sr.attributes
    { state := w.state,
      trace := w.trace ++
        [.printf .GotSearchRequest, .printf (.baseObject sr.baseObject),
         .printf S, .printf D,
         .printf (.attributesDerlen sr.attributes.derlen),
         .printf (.attributesEnterDerlen sr.attributes.derlen)] } h
  obtain ⟨k1, k2⟩ := attrs_loop_keeps_lines _ _ _ _ _ hloop
  obtain ⟨e1, e2, -⟩ := entry_lines_filters sr S D hS hD w
  refine ⟨w2, S, D, ?_, ?_, ?_, ?_, ?_, ?_, ?_⟩
  · rw [SearchRequest_unfold, hS, hD]
    simp only [Option.some_bind, hloop, Option.map_some']
  · rw [k1]; exact e1
  · rw [k2]; exact e2
  · intro hn
    have := (scope_line_cases sr.scope.derptr sr.scope.derlen 0 []).1 hn
    rw [show (⟨sr.scope.derptr, sr.scope.derlen⟩ : dercursor) = sr.scope from rfl, hS] at this
    exact Option.some.inj this
  · intro v rest hs
    rw [hs] at hS
    have hc := (scope_line_cases none 0 v rest).2
    rw [hS] at hc
    simp only [Option.some.injEq] at hc
    exact ⟨hc.1, hc.2.1, hc.2.2.1, hc.2.2.2.1⟩
  · intro hn
    have := (deref_line_cases sr.derefAliases.derptr sr.derefAliases.derlen 0 []).1 hn
    rw [show (⟨sr.derefAliases.derptr, sr.derefAliases.derlen⟩ : dercursor)
      = sr.derefAliases from rfl, hD] at this
    exact Option.some.inj this
  · intro v rest hs
    rw [hs] at hD
    have hc := (deref_line_cases none 0 v rest).2
    rw [hD] at hc
    simp only [Option.some.injEq] at hc
    exact ⟨hc.1, hc.2.1, hc.2.2.1, hc.2.2.2.1, hc.2.2.2.2.1⟩

/-- Witness for `SearchRequest_scope_and_deref`: scenario 2 with fuel 8. -/
theorem SearchRequest_scope_and_deref_witness :
    (scenario2.scope.derlen = 1 → scenario2.scope.deref.isSome = true)
    ∧ (scenario2.derefAliases.derlen = 1 → scenario2.derefAliases.deref.isSome = true)
    ∧ scenario2.attributes.readable = true
    ∧ scenario2.attributes.derlen ≤ 8
    ∧ ∃ (w2 : World Unit) (S D : Line),
      lillypass_SearchRequest (quickder der_enter) 8 0 0 0 scenario2 ⟨none, 0⟩ world0
        = some (0, w2)
      ∧ scope_lines w2.trace = scope_lines world0.trace ++ [S]
      ∧ deref_lines w2.trace = deref_lines world0.trace ++ [D]
      ∧ (scenario2.scope.derlen ≠ 1 → S = .scopeAwkwardSize scenario2.scope.derlen)
      ∧ (∀ v rest, scenario2.scope = ⟨some (v :: rest), 1⟩ →
          (S = .scopeBase ↔ v = 0) ∧ (S = .scopeOne ↔ v = 1) ∧ (S = .scopeSub ↔ v = 2)
          ∧ (S = .scopeWeird v ↔ (v ≠ 0 ∧ v ≠ 1 ∧ v ≠ 2)))
      ∧ (scenario2.derefAliases.derlen ≠ 1 →
          D = .derefAwkwardSize scenario2.derefAliases.derlen)
      ∧ (∀ v rest, scenario2.derefAliases = ⟨some (v :: rest), 1⟩ →
          (D = .neverDerefAlias ↔ v = 0) ∧ (D = .derefInSearching ↔ v = 1)
          ∧ (D = .derefFindingBaseObj ↔ v = 2) ∧ (D = .derefAlways ↔ v = 3)
          ∧ (D = .derefWeird v ↔ (v ≠ 0 ∧ v ≠ 1 ∧ v ≠ 2 ∧ v ≠ 3))) :=
  ⟨by decide, by decide, by decide, by decide,
   SearchRequest_scope_and_deref der_enter 8 0 0 0 scenario2 ⟨none, 0⟩ world0
    (by decide) (by decide) (by decide) (by decide)⟩

/-- There is one visited cursor per element. -/
theorem visited_length (tail : List Nat) (es : List (List Nat)) :
    (visited tail es).length = es.length := by
  induction es with
  | nil => rfl
  | cons e es ih => simp [visited, ih]

/-- C17: (1) for an attributes cursor that views the concatenation of `n`
well-formed DER elements, wherever the buffer goes on after them, the loop of
`lillypass_SearchRequest` (with the modelled `der_skip` and any `der_focus`)
ends once it has fuel for `n` rounds and reports exactly `n` attributes, the
i-th from the cursor on the elements i to n; (2) the callback then returns 0,
provided the scope byte and the derefAliases byte can be read wherever the
length is 1; (3) for an arbitrary cursor and arbitrary primitives whose
`der_skip` either strictly shortens a non-empty cursor or empties it, the loop
ends once its fuel reaches the length of the cursor, and (4) the callback
returns 0 under the proviso of (2); (5) on a readable cursor the modelled
`der_skip` is such a `der_skip` and leaves a readable cursor. -/
theorem SearchRequest_attrs_loop_visits_each_element :
    (∀ (σ : Type) (f : dercursor → Int × dercursor) (es : List (List Nat)) (tail : List Nat)
        (fuel : Nat) (w : World σ),
        (∀ e ∈ es, is_element e = true) →
        es.length ≤ fuel →
        ∃ w2 : World σ,
          SearchRequest_attrs_loop (quickder f) fuel (cursor_on (concat_elements es) tail) w
            = some w2
          ∧ reported_attributes w2.trace = reported_attributes w.trace
              ++ (visited tail es).map (fun c => focus_report (f c))
          ∧ (reported_attributes w2.trace).length
              = (reported_attributes w.trace).length + es.length)
    ∧ (∀ (σ : Type) (f : dercursor → Int × dercursor) (es : List (List Nat)) (tail : List Nat)
        (fuel : Nat) (lil : Ptr) (qpool : LillyPool) (msgid : LillyMsgId)
        (sr : LillyPack_SearchRequest) (controls : dercursor) (w : World σ),
        (∀ e ∈ es, is_element e = true) →
        sr.attributes = cursor_on (concat_elements es) tail →
        (sr.scope.derlen = 1 → sr.scope.deref.isSome = true) →
        (sr.derefAliases.derlen = 1 → sr.derefAliases.deref.isSome = true) →
        es.length ≤ fuel →
        ∃ w2 : World σ,
          lillypass_SearchRequest (quickder f) fuel lil qpool msgid sr controls w
            = some (0, w2)
          ∧ reported_attributes w2.trace = reported_attributes w.trace
              ++ (visited tail es).map (fun c => focus_report (f c))
          ∧ (reported_attributes w2.trace).length
              = (reported_attributes w.trace).length + es.length)
    ∧ (∀ (σ : Type) (Q : QuickDER),
        (∀ c : dercursor, 0 < c.derlen →
          (Q.der_skip c).2.derlen < c.derlen ∨ (Q.der_skip c).2.derlen = 0) →
        ∀ (fuel : Nat) (attrs : dercursor) (w : World σ),
          attrs.derlen ≤ fuel →
          ∃ w2 : World σ, SearchRequest_attrs_loop Q fuel attrs w = some w2)
    ∧ (∀ (σ : Type) (Q : QuickDER),
        (∀ c : dercursor, 0 < c.derlen →
          (Q.der_skip c).2.derlen < c.derlen ∨ (Q.der_skip c).2.derlen = 0) →
        ∀ (fuel : Nat) (lil : Ptr) (qpool : LillyPool) (msgid : LillyMsgId)
          (sr : LillyPack_SearchRequest) (controls : dercursor) (w : World σ),
          (sr.scope.derlen = 1 → sr.scope.deref.isSome = true) →
          (sr.derefAliases.derlen = 1 → sr.derefAliases.deref.isSome = true) →
          sr.attributes.derlen ≤ fuel →
          ∃ w2 : World σ,
            lillypass_SearchRequest Q fuel lil qpool msgid sr controls w = some (0, w2))
    ∧ (∀ c : dercursor, c.readable = true →
        (der_skip c).2.readable = true
        ∧ (0 < c.derlen → (der_skip c).2.derlen < c.derlen)) := by
  have hdec : ∀ (Q : QuickDER),
      (∀ c : dercursor, 0 < c.derlen →
        (Q.der_skip c).2.derlen < c.derlen ∨ (Q.der_skip c).2.derlen = 0) →
      ∀ c : dercursor, 0 < c.derlen → (Q.der_skip c).2.derlen < c.derlen := by
    intro Q hskip c hc
    rcases hskip c hc with h | h
    · exact h
    · rw [h]; exact hc
  refine ⟨?_, ?_, ?_, ?_, fun c hc => ⟨der_skip_readable c hc, der_skip_decreases c⟩⟩
  · intro σ f es tail fuel w hes hfuel
    obtain ⟨w2, h1, -, h3⟩ := attrs_loop_elements f tail es fuel w hes hfuel
    exact ⟨w2, h1, h3, by rw [h3]; simp [visited_length]⟩
  · intro σ f es tail fuel lil qpool msgid sr controls w hes hsr hscope hderef hfuel
    obtain ⟨S, hS⟩ := Option.isSome_iff_exists.1 ((scope_line_isSome sr.scope).2 hscope)
    obtain ⟨D, hD⟩ :=
      Option.isSome_iff_exists.1 ((deref_line_isSome sr.derefAliases).2 hderef)
    obtain ⟨w2, h1, -, h3⟩ := attrs_loop_elements f tail es fuel
      { state := w.state,
        trace := w.trace ++
          [.printf .GotSearchRequest, .printf (.baseObject sr.baseObject),
           .printf S, .printf D,
           .printf (.attributesDerlen sr.attributes.derlen),
           .printf (.attributesEnterDerlen sr.attributes.derlen)] } hes hfuel
    obtain ⟨-, -, e3⟩ := entry_lines_filters sr S D hS hD w
    have hrep : reported_attributes w2.trace = reported_attributes w.trace
        ++ (visited tail es).map (fun c => focus_report (f c)) := by
      rw [h3]; exact congrArg (· ++ _) e3
    rw [← hsr] at h1
    refine ⟨w2, ?_, hrep, ?_⟩
    · rw [SearchRequest_unfold, hS, hD]
      simp only [Option.some_bind, h1, Option.map_some']
    · rw [hrep]; simp [visited_length]
  · intro σ Q hskip fuel attrs w hfuel
    exact attrs_loop_terminates Q (hdec Q hskip) fuel attrs w hfuel
  · intro σ Q hskip fuel lil qpool msgid sr controls w hscope hderef hfuel
    obtain ⟨S, hS⟩ := Option.isSome_iff_exists.1 ((scope_line_isSome sr.scope).2 hscope)
    obtain ⟨D, hD⟩ :=
      Option.isSome_iff_exists.1 ((deref_line_isSome sr.derefAliases).2 hderef)
    obtain ⟨w2, hloop⟩ := attrs_loop_terminates Q (hdec Q hskip) fuel sr.attributes
      { state := w.state,
        trace := w.trace ++
          [.printf .GotSearchRequest, .printf (.baseObject sr.baseObject),
           .printf S, .printf D,
           .printf (.attributesDerlen sr.attributes.derlen),
           .printf (.attributesEnterDerlen sr.attributes.derlen)] } hfuel
    refine ⟨w2, ?_⟩
    rw [SearchRequest_unfold, hS, hD]
    simp only [Option.some_bind, hloop, Option.map_some']

/-- Witness for `SearchRequest_attrs_loop_visits_each_element`: the two
elements `cn` and `sn` of scenario 2 with fuel 2. -/
theorem SearchRequest_attrs_loop_visits_witness :
    ∃ w2 : World Unit,
      lillypass_SearchRequest (quickder der_enter) 2 0 0 0 scenario2 ⟨none, 0⟩ world0
        = some (0, w2)
      ∧ reported_attributes w2.trace = reported_attributes world0.trace
          ++ (visited [] [der_elem 0x04 bytes_cn, der_elem 0x04 bytes_sn]).map
              (fun c => focus_report (der_enter c))
      ∧ (reported_attributes w2.trace).length = (reported_attributes world0.trace).length + 2 :=
  SearchRequest_attrs_loop_visits_each_element.2.1 Unit der_enter
    [der_elem 0x04 bytes_cn, der_elem 0x04 bytes_sn] [] 2 0 0 0 scenario2 ⟨none, 0⟩ world0
    (by decide) (by decide) (by decide) (by decide) (by decide)

/-- One more round puts the two calls of a round in front. -/
theorem event_rounds_succ (lil : Ptr) (n : Nat) :
    event_rounds lil (n + 1)
      = Event.lillyget_event lil :: Event.lillyput_event lil :: event_rounds lil n := by
  simp [event_rounds, List.replicate_succ]

/-- From the counter value `i` on, the loop of `process` makes the calls of
`1000 - i` rounds and nothing else. -/
theorem process_for_spec {σ : Type} (S : Sys σ) (lil : Ptr) (mem : LilState) (k : Nat) :
    ∀ (i : Nat) (w : World σ), i + k = 1000 →
      (process_for S lil mem i w).trace = w.trace ++ event_rounds lil k := by
  induction k with
  | zero =>
    intro i w h
    rw [process_for]
    simp [show ¬ i < 1000 by omega, event_rounds]
  | succ k ih =>
    intro i w h
    rw [process_for]
    simp only [show i < 1000 by omega, if_true]
    rw [ih (i + 1) _ (by omega), event_rounds_succ]
    simp [call_lillyget_event, call_lillyput_event]

/-- In `n` rounds each of the two event functions is called `n` times, and the
calls alternate, `lillyget_event` first. -/
theorem event_rounds_counts (lil : Ptr) (n : Nat) :
    (event_rounds lil n).length = 2 * n
    ∧ (event_rounds lil n).count (Event.lillyget_event lil) = n
    ∧ (event_rounds lil n).count (Event.lillyput_event lil) = n
    ∧ ∀ j, j < n → (event_rounds lil n).get? (2 * j) = some (Event.lillyget_event lil)
        ∧ (event_rounds lil n).get? (2 * j + 1) = some (Event.lillyput_event lil) := by
  induction n with
  | zero => simp [event_rounds]
  | succ n ih =>
    obtain ⟨h1, h2, h3, h4⟩ := ih
    rw [event_rounds_succ]
    refine ⟨by simp [h1]; omega, by simp [h2], by simp [h3], ?_⟩
    intro j hj
    cases j with
    | zero => simp
    | succ j =>
      have := h4 j (by omega)
      have e1 : 2 * (j + 1) = (2 * j) + 1 + 1 := by omega
      rw [e1]
      simpa using this

/-- C16: when `open` returns a descriptor that is not negative and neither
`fcntl` call returns -1, `process` makes, after these three calls, exactly
the calls of 1000 rounds, each round `lillyget_event (lil)` followed by
`lillyput_event (lil)`, whatever these calls return, and then calls `close`
on the descriptor and returns: 1000 calls of each function, in strict
alternation starting with `lillyget_event`. -/
theorem process_calls_events_1000_times {σ : Type} (S : Sys σ) (O_NONBLOCK : Int)
    (lil : Ptr) (mem : LilState) (progname derfilename : List Char) (w : World σ)
    (fd flags r : Int) (s1 s2 s3 : σ)
    (hopen : S.sys_open derfilename w.state = (fd, s1)) (hfd : ¬ fd < 0)
    (hget : S.fcntl_getfl fd s1 = (flags, s2)) (hflags : flags ≠ -1)
    (hset : S.fcntl_setfl fd (Int.lor flags O_NONBLOCK) s2 = (r, s3)) (hr : r ≠ -1) :
    (process S O_NONBLOCK lil mem progname derfilename w).1
      = some { mem with get_fd := fd, put_fd := 1 }
    ∧ (process S O_NONBLOCK lil mem progname derfilename w).2.trace
      = w.trace
        ++ [Event.sys_open derfilename, Event.fcntl_getfl fd,
            Event.fcntl_setfl fd (Int.lor flags O_NONBLOCK)]
        ++ event_rounds lil 1000
        ++ [Event.close fd]
    ∧ (event_rounds lil 1000).length = 2000
    ∧ (event_rounds lil 1000).count (Event.lillyget_event lil) = 1000
    ∧ (event_rounds lil 1000).count (Event.lillyput_event lil) = 1000
    ∧ (∀ j, j < 1000 →
        (event_rounds lil 1000).get? (2 * j) = some (Event.lillyget_event lil)
        ∧ (event_rounds lil 1000).get? (2 * j + 1) = some (Event.lillyput_event lil)) := by
  have hp := process_for_spec S lil { mem with get_fd := fd, put_fd := 1 } 1000 0
  obtain ⟨c1, c2, c3, c4⟩ := event_rounds_counts lil 1000
  refine ⟨?_, ?_, c1, c2, c3, c4⟩
  · simp only [process, call_sys_open, hopen, hfd, if_false, call_fcntl_getfl, hget, hflags,
      call_fcntl_setfl, hset, hr, call_close]
  · simp only [process, call_sys_open, hopen, hfd, if_false, call_fcntl_getfl, hget, hflags,
      call_fcntl_setfl, hset, hr, call_close]
    rw [hp _ (by omega)]
    simp only [List.append_assoc, List.cons_append, List.nil_append]

/-- Witness for `process_calls_events_1000_times`: the system in which every
call succeeds, with descriptor 3. -/
theorem process_calls_events_1000_times_witness :
    (process sys_ok 2048 2 ⟨alloc0, 1, 0, 0⟩ ['p'] ['f'] world0).1
      = some { (⟨alloc0, 1, 0, 0⟩ : LilState) with get_fd := 3, put_fd := 1 }
    ∧ (process sys_ok 2048 2 ⟨alloc0, 1, 0, 0⟩ ['p'] ['f'] world0).2.trace
      = world0.trace
        ++ [Event.sys_open ['f'], Event.fcntl_getfl 3,
            Event.fcntl_setfl 3 (Int.lor 0 2048)]
        ++ event_rounds 2 1000
        ++ [Event.close 3]
    ∧ (event_rounds 2 1000).length = 2000
    ∧ (event_rounds 2 1000).count (Event.lillyget_event 2) = 1000
    ∧ (event_rounds 2 1000).count (Event.lillyput_event 2) = 1000
    ∧ (∀ j, j < 1000 →
        (event_rounds 2 1000).get? (2 * j) = some (Event.lillyget_event 2)
        ∧ (event_rounds 2 1000).get? (2 * j + 1) = some (Event.lillyput_event 2)) :=
  process_calls_events_1000_times sys_ok 2048 2 ⟨alloc0, 1, 0, 0⟩ ['p'] ['f'] world0
    3 0 0 () () () rfl (by decide) rfl (by decide) rfl (by decide)

/-- The level switch leaves the state alone, writes at most one line to
`stderr`, and goes on exactly for the levels '0' to '4'; when it exits, the
line is the invalid-level line. -/
theorem main_switch_spec {σ : Type} (level : Char) (lil : Handlers) (w : World σ) :
    ∃ errs : List ErrLine,
      (main_switch level lil w).2
        = { state := w.state, trace := w.trace ++ errs.map Event.fprintf_stderr }
      ∧ (main_switch level lil w).1 = (main_switch level lil world0).1
      ∧ ((main_switch level lil world0).1.isSome = true
          ↔ level ∈ ['0', '1', '2', '3', '4'])
      ∧ ((main_switch level lil world0).1 = none → errs = [.invalidLevel]) := by
  unfold main_switch
  split_ifs with h4 h3 h2 h1 h0
  · exact ⟨[.level4NotImplemented], rfl, rfl, by simp [h4], by simp⟩
  · exact ⟨[], by simp, rfl, by simp [h3], by simp⟩
  · exact ⟨[], by simp, rfl, by simp [h2], by simp⟩
  · exact ⟨[], by simp, rfl, by simp [h1], by simp⟩
  · exact ⟨[], by simp, rfl, by simp [h0], by simp⟩
  · exact ⟨[.invalidLevel], rfl, rfl, by simp [h4, h3, h2, h1, h0], by simp⟩

/-- The handler part of `main` leaves the state alone, writes at most one line
to `stderr`, and goes on exactly for the levels '0' to '4'; when it exits,
the line is the invalid-level line. -/
theorem main_configure_spec {σ : Type} (a : List Char) (w : World σ) :
    ∃ errs : List ErrLine,
      main_configure a w
        = ((main_configure a world0).1,
           { state := w.state, trace := w.trace ++ errs.map Event.fprintf_stderr })
      ∧ ((main_configure a world0).1.isSome = true
          ↔ main_level a ∈ ['0', '1', '2', '3', '4'])
      ∧ ((main_configure a world0).1 = none → errs = [.invalidLevel]) := by
  obtain ⟨errs, h1, h2, h3, h4⟩ :=
    main_switch_spec (main_level a) (main_pass_directly alloc0) w
  have hc : ∀ (τ : Type) (v : World τ),
      (main_configure a v).2 = (main_switch (main_level a) (main_pass_directly alloc0) v).2
      ∧ (main_configure a v).1
        = (main_switch (main_level a) (main_pass_directly alloc0) v).1.map
            (fun lil => { lil with opregistry := some opregistry }) := by
    intro τ v
    unfold main_configure
    dsimp only
    generalize main_switch (main_level a) (main_pass_directly alloc0) v = r
    rcases r with ⟨_ | _, _⟩ <;> exact ⟨rfl, rfl⟩
  refine ⟨errs, Prod.ext ?_ ?_, ?_, ?_⟩
  · rw [(hc σ w).2, (hc Unit world0).2, h2]
  · rw [(hc σ w).1, h1]
  · rw [(hc Unit world0).2, Option.isSome_map']
    exact h3
  · intro hn
    rw [(hc Unit world0).2] at hn
    exact h4 (by simpa using hn)

/-- The level of `main` is one of '0' to '4' exactly when `argv [1]` is one of
these characters and nothing more. -/
theorem main_level_accepted (a : List Char) :
    main_level a ∈ ['0', '1', '2', '3', '4']
      ↔ ∃ c ∈ ['0', '1', '2', '3', '4'], a = [c] := by
  unfold main_level
  match a with
  | [] => simp
  | [c] => simp
  | c :: d :: rest => simp

/-- With at least two arguments, both allocations done, `main` runs the level
switch and either exits with status 1 after the invalid-level line or goes
on with the handlers it configured. -/
theorem main_after_alloc {σ : Type} (S : Sys σ) (sizeof_LillyDAP : Nat) (G : Globals)
    (argv : List (List Char)) (w : World σ) (lipo : LillyPool) (lil : Ptr) (s1 s2 : σ)
    (hlen : ¬ argv.length < 3)
    (h1 : S.lillymem_newpool (setup G) w.state = (lipo, s1)) (hl : lipo ≠ 0)
    (h2 : S.lillymem_alloc0 (setup G) lipo sizeof_LillyDAP s1 = (lil, s2)) (hn : lil ≠ 0) :
    ∃ errs : List ErrLine,
      main S sizeof_LillyDAP G argv w
        = ((match (main_configure (argv.getD 1 []) world0).1 with
            | none => MainOutcome.exit 1
            | some handlers => MainOutcome.proceeds lipo lil handlers),
           { state := s2,
             trace := w.trace
               ++ [Event.lillymem_newpool, Event.lillymem_alloc0 lipo sizeof_LillyDAP]
               ++ errs.map Event.fprintf_stderr })
      ∧ ((main_configure (argv.getD 1 []) world0).1 = none → errs = [.invalidLevel]) := by
  obtain ⟨errs, he, -, h4⟩ := main_configure_spec (argv.getD 1 [])
    ({ state := s2,
       trace := (w.trace ++ [Event.lillymem_newpool]) ++
         [Event.lillymem_alloc0 lipo sizeof_LillyDAP] } : World σ)
  refine ⟨errs, ?_, h4⟩
  simp only [main, hlen, if_false, call_lillymem_newpool, h1, hl, call_lillymem_alloc0, h2,
    hn, he]
  cases (main_configure (argv.getD 1 []) world0).1 <;> simp

/-- The argument check and the level switch of `main`, allocation failures
told apart: (1) `main` gets past its argument check and its level switch exactly
when at least two arguments follow the program name and the level argument is
one character among '0', '1', '2', '3', '4'; (2) `main` goes on to the files
only for such an argument vector, and (3) it does so, with the handlers
configured for the level, when the pool and the structure are allocated.
(4) With fewer than two arguments `main` exits with status 1 after the usage
line, and (5) with any other rejected vector it exits with status 1 after the
invalid-level line, when the pool and the structure are allocated.  (6) For
every rejected vector no call of `main` opens a file or is `lillyget_event`
or `lillyput_event`, and `main` exits with status 1 unless
`lillymem_alloc0` returned `NULL`.  (7) With at least two arguments, `main`
exits with status 1 when the pool is not allocated, and (8) stops at the write
through `NULL` when the structure is not allocated. -/
theorem main_accepts_iff_valid_arguments :
    (∀ argv : List (List Char), main_accepts argv = true ↔
        (3 ≤ argv.length ∧ ∃ c ∈ ['0', '1', '2', '3', '4'], argv.getD 1 [] = [c]))
    ∧ (∀ (σ : Type) (S : Sys σ) (sizeof_LillyDAP : Nat) (G : Globals)
        (argv : List (List Char)) (w : World σ) (lipo : LillyPool) (lil : Ptr)
        (handlers : Handlers),
        (main S sizeof_LillyDAP G argv w).1 = .proceeds lipo lil handlers →
        main_accepts argv = true)
    ∧ (∀ (σ : Type) (S : Sys σ) (sizeof_LillyDAP : Nat) (G : Globals)
        (argv : List (List Char)) (w : World σ) (lipo : LillyPool) (lil : Ptr) (s1 s2 : σ),
        main_accepts argv = true →
        S.lillymem_newpool (setup G) w.state = (lipo, s1) → lipo ≠ 0 →
        S.lillymem_alloc0 (setup G) lipo sizeof_LillyDAP s1 = (lil, s2) → lil ≠ 0 →
        ∃ (handlers : Handlers) (errs : List ErrLine),
          handlers_for (argv.getD 1 []) = some handlers
          ∧ main S sizeof_LillyDAP G argv w
            = (.proceeds lipo lil handlers,
               { state := s2,
                 trace := w.trace
                   ++ [Event.lillymem_newpool, Event.lillymem_alloc0 lipo sizeof_LillyDAP]
                   ++ errs.map Event.fprintf_stderr }))
    ∧ (∀ (σ : Type) (S : Sys σ) (sizeof_LillyDAP : Nat) (G : Globals)
        (argv : List (List Char)) (w : World σ),
        argv.length < 3 →
        main S sizeof_LillyDAP G argv w
          = (.exit 1,
             { state := w.state,
               trace := w.trace ++ [Event.fprintf_stderr (.usage (argv.getD 0 []))] }))
    ∧ (∀ (σ : Type) (S : Sys σ) (sizeof_LillyDAP : Nat) (G : Globals)
        (argv : List (List Char)) (w : World σ) (lipo : LillyPool) (lil : Ptr) (s1 s2 : σ),
        main_accepts argv = false → ¬ argv.length < 3 →
        S.lillymem_newpool (setup G) w.state = (lipo, s1) → lipo ≠ 0 →
        S.lillymem_alloc0 (setup G) lipo sizeof_LillyDAP s1 = (lil, s2) → lil ≠ 0 →
        main S sizeof_LillyDAP G argv w
          = (.exit 1,
             { state := s2,
               trace := w.trace
                 ++ [Event.lillymem_newpool, Event.lillymem_alloc0 lipo sizeof_LillyDAP]
                 ++ [Event.fprintf_stderr .invalidLevel] }))
    ∧ (∀ (σ : Type) (S : Sys σ) (sizeof_LillyDAP : Nat) (G : Globals)
        (argv : List (List Char)) (w : World σ),
        main_accepts argv = false →
        (∃ extra, (main S sizeof_LillyDAP G argv w).2.trace = w.trace ++ extra
          ∧ extra.all (fun e => !e.isInput) = true)
        ∧ ((main S sizeof_LillyDAP G argv w).1 = .exit 1
          ∨ (main S sizeof_LillyDAP G argv w).1 = .crash)
        ∧ ((main S sizeof_LillyDAP G argv w).1 = .crash →
            (S.lillymem_alloc0 (setup G) (S.lillymem_newpool (setup G) w.state).1
              sizeof_LillyDAP (S.lillymem_newpool (setup G) w.state).2).1 = 0))
    ∧ (∀ (σ : Type) (S : Sys σ) (sizeof_LillyDAP : Nat) (G : Globals)
        (argv : List (List Char)) (w : World σ) (lipo : LillyPool) (s1 : σ),
        ¬ argv.length < 3 →
        S.lillymem_newpool (setup G) w.state = (lipo, s1) → lipo = 0 →
        main S sizeof_LillyDAP G argv w
          = (.exit 1,
             { state := s1,
               trace := w.trace ++ [Event.lillymem_newpool,
                 Event.fprintf_stderr (.poolFailed (argv.getD 0 []))] }))
    ∧ (∀ (σ : Type) (S : Sys σ) (sizeof_LillyDAP : Nat) (G : Globals)
        (argv : List (List Char)) (w : World σ) (lipo : LillyPool) (lil : Ptr) (s1 s2 : σ),
        ¬ argv.length < 3 →
        S.lillymem_newpool (setup G) w.state = (lipo, s1) → lipo ≠ 0 →
        S.lillymem_alloc0 (setup G) lipo sizeof_LillyDAP s1 = (lil, s2) → lil = 0 →
        main S sizeof_LillyDAP G argv w
          = (.crash,
             { state := s2,
               trace := w.trace
                 ++ [Event.lillymem_newpool, Event.lillymem_alloc0 lipo sizeof_LillyDAP] }))
    := by
  have hacc : ∀ argv : List (List Char), main_accepts argv = true ↔
      (3 ≤ argv.length ∧ ∃ c ∈ ['0', '1', '2', '3', '4'], argv.getD 1 [] = [c]) := by
    intro argv
    obtain ⟨-, -, h3, -⟩ := main_configure_spec (argv.getD 1 []) world0
    simp only [main_accepts, Bool.and_eq_true, decide_eq_true_eq, h3, main_level_accepted]
    constructor
    · rintro ⟨h, hc⟩; exact ⟨by omega, hc⟩
    · rintro ⟨h, hc⟩; exact ⟨by omega, hc⟩
  have husage : ∀ (σ : Type) (S : Sys σ) (sz : Nat) (G : Globals)
      (argv : List (List Char)) (w : World σ), argv.length < 3 →
      main S sz G argv w
        = (.exit 1,
           { state := w.state,
             trace := w.trace ++ [Event.fprintf_stderr (.usage (argv.getD 0 []))] }) := by
    intro σ S sz G argv w hlen
    simp [main, hlen, fprintf_stderr, World.emit]
  have hpool : ∀ (σ : Type) (S : Sys σ) (sz : Nat) (G : Globals)
      (argv : List (List Char)) (w : World σ) (lipo : LillyPool) (s1 : σ),
      ¬ argv.length < 3 →
      S.lillymem_newpool (setup G) w.state = (lipo, s1) → lipo = 0 →
      main S sz G argv w
        = (.exit 1,
           { state := s1,
             trace := w.trace ++ [Event.lillymem_newpool,
               Event.fprintf_stderr (.poolFailed (argv.getD 0 []))] }) := by
    intro σ S sz G argv w lipo s1 hlen h1 hl
    simp [main, hlen, call_lillymem_newpool, h1, hl, fprintf_stderr, World.emit]
  have hcrash : ∀ (σ : Type) (S : Sys σ) (sz : Nat) (G : Globals)
      (argv : List (List Char)) (w : World σ) (lipo : LillyPool) (lil : Ptr) (s1 s2 : σ),
      ¬ argv.length < 3 →
      S.lillymem_newpool (setup G) w.state = (lipo, s1) → lipo ≠ 0 →
      S.lillymem_alloc0 (setup G) lipo sz s1 = (lil, s2) → lil = 0 →
      main S sz G argv w
        = (.crash,
           { state := s2,
             trace := w.trace ++ [Event.lillymem_newpool, Event.lillymem_alloc0 lipo sz] }) := by
    intro σ S sz G argv w lipo lil s1 s2 hlen h1 hl h2 hn
    simp [main, hlen, call_lillymem_newpool, h1, hl, call_lillymem_alloc0, h2, hn]
  have hnone : ∀ argv : List (List Char), main_accepts argv = false → ¬ argv.length < 3 →
      (main_configure (argv.getD 1 []) world0).1 = none := by
    intro argv hrej hlen
    simp only [main_accepts, hlen, not_false_eq_true, decide_True, Bool.true_and] at hrej
    cases h : (main_configure (argv.getD 1 []) world0).1 with
    | none => rfl
    | some x => rw [h] at hrej; simp at hrej
  have hreject : ∀ (σ : Type) (S : Sys σ) (sz : Nat) (G : Globals)
      (argv : List (List Char)) (w : World σ) (lipo : LillyPool) (lil : Ptr) (s1 s2 : σ),
      main_accepts argv = false → ¬ argv.length < 3 →
      S.lillymem_newpool (setup G) w.state = (lipo, s1) → lipo ≠ 0 →
      S.lillymem_alloc0 (setup G) lipo sz s1 = (lil, s2) → lil ≠ 0 →
      main S sz G argv w
        = (.exit 1,
           { state := s2,
             trace := w.trace ++ [Event.lillymem_newpool, Event.lillymem_alloc0 lipo sz]
               ++ [Event.fprintf_stderr .invalidLevel] }) := by
    intro σ S sz G argv w lipo lil s1 s2 hrej hlen h1 hl h2 hn
    obtain ⟨errs, hm, he⟩ := main_after_alloc S sz G argv w lipo lil s1 s2 hlen h1 hl h2 hn
    have hno := hnone argv hrej hlen
    rw [hm, he hno, hno]
    rfl
  refine ⟨hacc, ?_, ?_, husage, hreject, ?_, hpool, hcrash⟩
  · intro σ S sz G argv w lipo lil handlers hp
    by_cases hlen : argv.length < 3
    · rw [husage σ S sz G argv w hlen] at hp
      simp at hp
    · rcases h1 : S.lillymem_newpool (setup G) w.state with ⟨lipo2, s1⟩
      by_cases hl : lipo2 = 0
      · rw [hpool σ S sz G argv w lipo2 s1 hlen h1 hl] at hp
        simp at hp
      · rcases h2 : S.lillymem_alloc0 (setup G) lipo2 sz s1 with ⟨lil2, s2⟩
        by_cases hn : lil2 = 0
        · rw [hcrash σ S sz G argv w lipo2 lil2 s1 s2 hlen h1 hl h2 hn] at hp
          simp at hp
        · cases hacc2 : main_accepts argv with
          | true => rfl
          | false =>
            rw [hreject σ S sz G argv w lipo2 lil2 s1 s2 hacc2 hlen h1 hl h2 hn] at hp
            simp at hp
  · intro σ S sz G argv w lipo lil s1 s2 hacc2 h1 hl h2 hn
    have hlen : ¬ argv.length < 3 := by
      have := ((hacc argv).1 hacc2).1
      omega
    obtain ⟨errs, hm, -⟩ := main_after_alloc S sz G argv w lipo lil s1 s2 hlen h1 hl h2 hn
    have hsome : (main_configure (argv.getD 1 []) world0).1.isSome = true := by
      simp only [main_accepts, Bool.and_eq_true] at hacc2
      exact hacc2.2
    obtain ⟨hd, hsm⟩ := Option.isSome_iff_exists.1 hsome
    refine ⟨hd, errs, hsm, ?_⟩
    rw [hm, hsm]
  · intro σ S sz G argv w hrej
    by_cases hlen : argv.length < 3
    · rw [husage σ S sz G argv w hlen]
      exact ⟨⟨[Event.fprintf_stderr (.usage (argv.getD 0 []))], rfl, rfl⟩, Or.inl rfl, by simp⟩
    · rcases h1 : S.lillymem_newpool (setup G) w.state with ⟨lipo, s1⟩
      by_cases hl : lipo = 0
      · rw [hpool σ S sz G argv w lipo s1 hlen h1 hl]
        exact ⟨⟨[Event.lillymem_newpool, Event.fprintf_stderr (.poolFailed (argv.getD 0 []))],
          rfl, rfl⟩, Or.inl rfl, by simp⟩
      · rcases h2 : S.lillymem_alloc0 (setup G) lipo sz s1 with ⟨lil, s2⟩
        by_cases hn : lil = 0
        · rw [hcrash σ S sz G argv w lipo lil s1 s2 hlen h1 hl h2 hn]
          exact ⟨⟨[Event.lillymem_newpool, Event.lillymem_alloc0 lipo sz], rfl, rfl⟩,
            Or.inr rfl, fun _ => hn⟩
        · rw [hreject σ S sz G argv w lipo lil s1 s2 hrej hlen h1 hl h2 hn]
          exact ⟨⟨[Event.lillymem_newpool, Event.lillymem_alloc0 lipo sz,
            Event.fprintf_stderr .invalidLevel], by simp, rfl⟩, Or.inl rfl, by simp⟩

/-- An instance of `main_accepts_iff_valid_arguments`: in the system in which
every call succeeds, the vector `p 5 f` is rejected with status 1 after the
invalid-level line, and the vector `p 0 f` is accepted and `main` goes on with
the handlers of level 0. -/
theorem main_accepts_iff_valid_arguments_witness :
    main_accepts [['p'], ['5'], ['f']] = false
    ∧ main sys_ok 64 ⟨.NULL, .NULL, .NULL⟩ [['p'], ['5'], ['f']] world0
        = (.exit 1,
           { state := (),
             trace := world0.trace
               ++ [Event.lillymem_newpool, Event.lillymem_alloc0 1 64]
               ++ [Event.fprintf_stderr .invalidLevel] })
    ∧ main_accepts [['p'], ['0'], ['f']] = true
    ∧ (∃ (handlers : Handlers) (errs : List ErrLine),
        handlers_for ([['p'], ['0'], ['f']].getD 1 []) = some handlers
        ∧ main sys_ok 64 ⟨.NULL, .NULL, .NULL⟩ [['p'], ['0'], ['f']] world0
          = (.proceeds 1 2 handlers,
             { state := (),
               trace := world0.trace
                 ++ [Event.lillymem_newpool, Event.lillymem_alloc0 1 64]
                 ++ errs.map Event.fprintf_stderr })) :=
  ⟨by decide,
   main_accepts_iff_valid_arguments.2.2.2.2.1 Unit sys_ok 64 ⟨.NULL, .NULL, .NULL⟩
      [['p'], ['5'], ['f']] world0 1 2 () () (by decide) (by decide) rfl (by decide) rfl
      (by decide),
   by decide,
   main_accepts_iff_valid_arguments.2.2.1 Unit sys_ok 64 ⟨.NULL, .NULL, .NULL⟩
      [['p'], ['0'], ['f']] world0 1 2 () () (by decide) rfl (by decide) rfl (by decide)⟩


end Lillydap
